import Mathlib

/-!
Verification development for the proxmark3 ISO15693 / iClass firmware sources
(`armsrc/iso15693.c`, `armsrc/iclass.c`).

The C code is shallowly embedded: every decoder is an explicit step function on
an explicit state record (the C code keeps one mutable struct per decoder), the
tag-emulation dispatchers are step functions from a session state and a received
frame to a new session state and an optional response, and machine integers are
Nat with `% 2 ^ w` where the C stores truncate.

Stores into a decoder's output buffer (`output[i] = v` in C) are recorded in a
`writes` log of (index, value) pairs so that out-of-bounds stores are
observable in the model.
-/

namespace Proxmark

/-! ## Bit and sample streams

`ToSend[++ToSendMax] = b` in the C appends the byte `b` to the transmit buffer;
the transmitter (`TransmitTo15693Tag`) then shifts each such byte out bit by
bit, most significant bit first, and `ToSendStuffBit` appends a single bit.
We therefore model the `ToSend` buffer at the bit level: a byte contributes its
8 bits most-significant first. -/

/-- The 8 bits of a byte, most significant first, as transmitted by
`TransmitTo15693Tag` (`data & 0x80`, then `data <<= 1`). -/
def byteBits (b : Nat) : List Bool :=
  (List.range 8).map (fun i => ((b >>> (7 - i)) &&& 1) == 1)

/-- One `ToSend` bit of a reader frame lasts 32 carrier-divided transmit clock
ticks = 4 periods of the 848 kHz decoder sampling clock, and a `1` bit is a
full-modulation pulse, which the simulator's digitized input reads as logic
low.  So the modulation sample stream seen by `Handle15693SampleFromReader` is
each `ToSend` bit negated and repeated 4 times. -/
def toSamples (bits : List Bool) : List Bool :=
  bits.flatMap (fun b => List.replicate 4 (!b))

/-! ## `CodeIso15693AsReader` (1-out-of-4) and `CodeIso15693AsReader256`
(1-out-of-256), iso15693.c lines 105-166, as `ToSend` byte/bit streams. -/

/-- The switch in `CodeIso15693AsReader`: the `ToSend` byte for one 2-bit
symbol.  The C switch appends nothing for an impossible value, hence the list
result. -/
def readerSymbol (v : Nat) : List Nat :=
  match v with
  | 0 => [0x40]
  | 1 => [0x10]
  | 2 => [0x04]
  | 3 => [0x01]
  | _ => []

/-- `CodeIso15693AsReader` (iso15693.c:105): SOF byte 0x84, then per input byte
the four 2-bit symbols `(cmd[i] >> j) & 0x03` for j = 0,2,4,6, then EOF byte
0x20; given as the `ToSend` byte sequence. -/
def codeIso15693AsReader (cmd : List Nat) : List Nat :=
  0x84 :: (cmd.flatMap (fun c =>
    (List.range 4).flatMap (fun j => readerSymbol ((c >>> (2 * j)) &&& 0x03))) ++ [0x20])

/-- `CodeIso15693AsReader256` (iso15693.c:142): SOF byte 0x81 (8 bits), then
for each input byte 256 slots of two stuffed bits -- `(0,1)` at the slot equal
to the byte and `(0,0)` elsewhere -- then EOF byte 0x20.  `ToSendStuffBit`
appends single bits, so this encoder is given directly as a bit stream. -/
def codeIso15693AsReader256Bits (cmd : List Nat) : List Bool :=
  byteBits 0x81 ++
    cmd.flatMap (fun c =>
      (List.range 256).flatMap (fun j =>
        if c = j then [false, true] else [false, false])) ++
    byteBits 0x20

/-! ## The reader-direction decoder `Handle15693SampleFromReader`
(iso15693.c:1093-1291) -/

/-- `DecodeReader_t.state` (iso15693.c:1051-1060). -/
inductive RState
  | unsyncd
  | await1stFallingEdge
  | await1stRisingEdge
  | await2ndFallingEdge
  | await2ndRisingEdge
  | awaitEndOfSof
  | rxOneOutOf4
  | rxOneOutOf256
deriving DecidableEq, Repr

/-- `DecodeReader_t.Coding` (iso15693.c:1061-1064). -/
inductive RCoding
  | oneOutOf4
  | oneOutOf256
deriving DecidableEq, Repr

/-- `DecodeReader_t` (iso15693.c:1050-1072).  `output`/`byteCount` are modelled
by a log of stores `writes` plus the counter; `byteCountMax` is the capacity
the caller passed to `DecodeReaderInit`. -/
structure DecodeReader where
  state : RState
  coding : RCoding
  shiftReg : Nat
  bitCount : Nat
  byteCount : Nat
  byteCountMax : Nat
  posCount : Nat
  sum1 : Nat
  sum2 : Nat
  writes : List (Nat × Nat)
deriving DecidableEq, Repr

/-- `DecodeReaderInit` (iso15693.c:1075): the struct is zero-initialized by the
callers (`DecodeReader_t DecodeReader = {0}`) and then `Init` sets the capacity
and `posCount = 1`. -/
def decodeReaderInit (maxLen : Nat) : DecodeReader :=
  ⟨.unsyncd, .oneOutOf4, 0, 0, 0, maxLen, 1, 0, 0, []⟩

/-- Tail of one completed 8-sample period in `STATE_READER_RECEIVE_DATA_1_OUT_OF_4`
(iso15693.c:1229-1244): the 2-bit-pulse test, then the full-byte store with its
(post-increment) capacity check; `DecodeReaderReset` only sets the state field.
`shiftReg` and `bitCount` are `uint8_t`. -/
def rx4Tail (s1 s2 : Nat) (d : DecodeReader) : DecodeReader :=
  let d1 := if 3 ≤ s1 ∧ s2 ≤ 1
            then {d with shiftReg := ((d.shiftReg >>> 2) ||| (d.bitCount <<< 6)) % 256}
            else d
  if d1.bitCount = 15 then
    if d1.byteCount + 1 > d1.byteCountMax then
      {d1 with writes := d1.writes ++ [(d1.byteCount, d1.shiftReg)],
               byteCount := d1.byteCount + 1, state := .unsyncd,
               bitCount := 0, shiftReg := 0}
    else
      {d1 with writes := d1.writes ++ [(d1.byteCount, d1.shiftReg)],
               byteCount := d1.byteCount + 1, bitCount := 0, shiftReg := 0}
  else {d1 with bitCount := (d1.bitCount + 1) % 256}

/-- Tail of one completed 8-sample period in
`STATE_READER_RECEIVE_DATA_1_OUT_OF_256` (iso15693.c:1269-1280): the
bit-position test, the store at `bitCount == 255` with its capacity check, and
the unconditional `uint8_t` increment of `bitCount`. -/
def rx256Tail (s1 s2 : Nat) (d : DecodeReader) : DecodeReader :=
  let d1 := if 3 ≤ s1 ∧ s2 ≤ 1 then {d with shiftReg := d.bitCount} else d
  if d1.bitCount = 255 then
    if d1.byteCount + 1 > d1.byteCountMax then
      {d1 with writes := d1.writes ++ [(d1.byteCount, d1.shiftReg)],
               byteCount := d1.byteCount + 1, state := .unsyncd,
               bitCount := (d1.bitCount + 1) % 256}
    else
      {d1 with writes := d1.writes ++ [(d1.byteCount, d1.shiftReg)],
               byteCount := d1.byteCount + 1, bitCount := (d1.bitCount + 1) % 256}
  else {d1 with bitCount := (d1.bitCount + 1) % 256}

/-- `Handle15693SampleFromReader` (iso15693.c:1093-1291): one sample, returning
the updated decoder and the `return true/false` flag ("frame complete"). -/
def readerStep (bit : Bool) (d : DecodeReader) : DecodeReader × Bool :=
  match d.state with
  | .unsyncd =>
      if bit then ({d with state := .await1stFallingEdge}, false) else (d, false)
  | .await1stFallingEdge =>
      if !bit then ({d with posCount := 1, state := .await1stRisingEdge}, false)
      else (d, false)
  | .await1stRisingEdge =>
      let p := d.posCount + 1
      if bit then
        if p < 4 then ({d with posCount := p, state := .await1stFallingEdge}, false)
        else ({d with posCount := p, state := .await2ndFallingEdge}, false)
      else
        if p > 5 then ({d with posCount := p, state := .unsyncd}, false)
        else ({d with posCount := p}, false)
  | .await2ndFallingEdge =>
      let p := d.posCount + 1
      if !bit then
        if p < 20 then ({d with posCount := p, state := .unsyncd}, false)
        else if p < 23 then
          ({d with posCount := p, coding := .oneOutOf4, state := .await2ndRisingEdge}, false)
        else if p < 28 then ({d with posCount := p, state := .unsyncd}, false)
        else ({d with posCount := p, coding := .oneOutOf256, state := .await2ndRisingEdge}, false)
      else
        if p > 29 then ({d with posCount := p, state := .await1stFallingEdge}, false)
        else ({d with posCount := p}, false)
  | .await2ndRisingEdge =>
      let p := d.posCount + 1
      if bit then
        match d.coding with
        | .oneOutOf256 =>
            if p < 32 then ({d with posCount := p, state := .await1stFallingEdge}, false)
            else ({d with posCount := 1, bitCount := 0, byteCount := 0, sum1 := 1,
                          state := .rxOneOutOf256}, false)
        | .oneOutOf4 =>
            if p < 24 then ({d with posCount := p, state := .await1stFallingEdge}, false)
            else ({d with posCount := 1, state := .awaitEndOfSof}, false)
      else
        match d.coding with
        | .oneOutOf256 =>
            if p > 34 then ({d with posCount := p, state := .unsyncd}, false)
            else ({d with posCount := p}, false)
        | .oneOutOf4 =>
            if p > 26 then ({d with posCount := p, state := .unsyncd}, false)
            else ({d with posCount := p}, false)
  | .awaitEndOfSof =>
      let p := d.posCount + 1
      if bit then
        if p = 9 then
          ({d with posCount := 1, bitCount := 0, byteCount := 0, sum1 := 1,
                   state := .rxOneOutOf4}, false)
        else ({d with posCount := p}, false)
      else ({d with posCount := p, state := .unsyncd}, false)
  | .rxOneOutOf4 =>
      let bv : Nat := if bit then 1 else 0
      let p := d.posCount + 1
      let s1 := if p = 1 then bv else if p ≤ 4 then d.sum1 + bv else d.sum1
      let s2 := if p = 5 then bv else if 5 < p then d.sum2 + bv else d.sum2
      if p = 8 then
        let d0 := {d with posCount := 0, sum1 := s1, sum2 := s2}
        if s1 ≤ 1 ∧ 3 ≤ s2 then
          let d1 := {d0 with state := .unsyncd}
          if d.byteCount ≠ 0 then (d1, true) else (rx4Tail s1 s2 d1, false)
        else (rx4Tail s1 s2 d0, false)
      else ({d with posCount := p, sum1 := s1, sum2 := s2}, false)
  | .rxOneOutOf256 =>
      let bv : Nat := if bit then 1 else 0
      let p := d.posCount + 1
      let s1 := if p = 1 then bv else if p ≤ 4 then d.sum1 + bv else d.sum1
      let s2 := if p = 5 then bv else if 5 < p then d.sum2 + bv else d.sum2
      if p = 8 then
        let d0 := {d with posCount := 0, sum1 := s1, sum2 := s2}
        if s1 ≤ 1 ∧ 3 ≤ s2 then
          let d1 := {d0 with state := .unsyncd}
          if d.byteCount ≠ 0 then (d1, true) else (rx256Tail s1 s2 d1, false)
        else (rx256Tail s1 s2 d0, false)
      else ({d with posCount := p, sum1 := s1, sum2 := s2}, false)

/-- The sample-feeding loop of `GetIso15693CommandFromReader`
(iso15693.c:1350-1357): feed samples until the decoder reports a complete
frame; the Bool records whether a frame completed (`gotFrame`). -/
def readerRun (d : DecodeReader) : List Bool → DecodeReader × Bool
  | [] => (d, false)
  | b :: bs =>
      match readerStep b d with
      | (d1, true) => (d1, true)
      | (d1, false) => readerRun d1 bs

/-! ## Concrete decoder inputs and states used by the claims below -/

/-- The modulation sample stream of the 1-out-of-4 reader encoding of the
two-byte frame AA BB: one idle (carrier-high) sample, then the encoded frame. -/
def c1Samples : List Bool :=
  true :: toSamples ((codeIso15693AsReader [0xAA, 0xBB]).flatMap byteBits)

/-- A decoder state about to complete an EOF period with one decoded byte. -/
def c8exA : DecodeReader :=
  ⟨.rxOneOutOf4, .oneOutOf4, 0, 3, 1, 45, 7, 0, 4, [(0, 17)]⟩

/-- A decoder state about to complete an EOF period with zero decoded bytes. -/
def c8exB : DecodeReader :=
  ⟨.rxOneOutOf256, .oneOutOf256, 0, 3, 0, 45, 7, 0, 4, []⟩

/-- `FREQ_IS_484` (iso15693.c:723): `f >= 26 && f <= 30`. -/
def FREQ_IS_484 (f : Nat) : Prop := 26 ≤ f ∧ f ≤ 30

/-- `FREQ_IS_424` (iso15693.c:724): `f >= 30 && f <= 34`. -/
def FREQ_IS_424 (f : Nat) : Prop := 30 ≤ f ∧ f ≤ 34

instance (f : Nat) : Decidable (FREQ_IS_484 f) := by unfold FREQ_IS_484; infer_instance

instance (f : Nat) : Decidable (FREQ_IS_424 f) := by unfold FREQ_IS_424; infer_instance

/-- `rotateCSN` (iclass.c:758-763): `rotatedCSN[i] =
(originalCSN[i] >> 3) | (originalCSN[(i+1)%8] << 5)`, stored into `uint8_t`. -/
def rotateCSN (csn : List Nat) : List Nat :=
  (List.range 8).map (fun i =>
    ((csn.getD i 0 >>> 3) ||| (csn.getD ((i + 1) % 8) 0 <<< 5)) % 256)

/-- The inverse of `rotateCSN` (not in the source; witnesses bijectivity):
byte `i` is rebuilt from the low 5 bits of rotated byte `i` and the top 3 bits
of rotated byte `i - 1` (mod 8). -/
def rotateCSNInv (r : List Nat) : List Nat :=
  (List.range 8).map (fun i =>
    ((r.getD i 0 &&& 0x1F) <<< 3) ||| (r.getD ((i + 7) % 8) 0 >>> 5))

/-- The default simulated CSN `03 1f ec 8a f7 ff 12 e0` (iclass.c:1285). -/
def defaultCSN : List Nat := [0x03, 0x1f, 0xec, 0x8a, 0xf7, 0xff, 0x12, 0xe0]

/-! ## CRC functions

The CRC implementations live in `common/iso14443crc.*` and
`common/iso15693tools.*`, which are not part of the given sources; they are
modelled below from their standard definitions and checked against the
documented trailer bytes (`fa 22` for a block-1 iClass read). -/

/-- Modelled from the spec: one step of `UpdateCrc14443` from the missing
`common/iso14443crc.h` -- the standard ISO14443 CRC16 update
(`ch ^= crc & 0xff; ch ^= ch << 4;
crc = (crc >> 8) ^ (ch << 8) ^ (ch << 3) ^ (ch >> 4)`), on 8/16-bit stores. -/
def updateCrc14443 (b crc : Nat) : Nat :=
  let ch := (b ^^^ (crc &&& 0xFF)) &&& 0xFF
  let ch2 := (ch ^^^ ((ch <<< 4) &&& 0xFF)) &&& 0xFF
  ((crc >>> 8) ^^^ (ch2 <<< 8) ^^^ (ch2 <<< 3) ^^^ (ch2 >>> 4)) &&& 0xFFFF

/-- Modelled from the spec: `ComputeCrc14443(CRC_ICLASS, data, len, ...)` from
the missing `common/iso14443crc.*`: the ISO14443 CRC16 with the iClass preset
0xE012 and no final complement.  The transmitted trailer is the low byte then
the high byte; for data `[0x01]` this yields the trailer `fa 22` documented in
the spec and hardcoded at iclass.c:1404. -/
def iclassCrc16 (data : List Nat) : Nat :=
  data.foldl (fun c b => updateCrc14443 b c) 0xE012

/-- `AppendCrc` (iclass.c:772): append `ComputeCrc14443(CRC_ICLASS, ...)`, low
byte first. -/
def appendCrc (data : List Nat) : List Nat :=
  data ++ [iclassCrc16 data &&& 0xFF, iclassCrc16 data >>> 8]

/-- A byte string ends in the valid iClass CRC of its initial part. -/
def iclassCrcOk (l : List Nat) : Prop :=
  appendCrc (l.take (l.length - 2)) = l

/-- Modelled from the spec: one polynomial-division round of `Iso15693Crc`
from the missing `common/iso15693tools.c`. -/
def iso15693CrcRound (r : Nat) : Nat :=
  if r &&& 1 = 1 then (r >>> 1) ^^^ 0x8408 else r >>> 1

/-- Modelled from the spec: `Iso15693Crc` from the missing
`common/iso15693tools.c` -- the standard ISO15693 CRC16 (preset 0xFFFF,
polynomial 0x8408, complemented result; CRC-16/X-25). -/
def iso15693Crc (data : List Nat) : Nat :=
  (data.foldl (fun reg b =>
    (List.range 8).foldl (fun r _ => iso15693CrcRound r) (reg ^^^ b)) 0xFFFF) ^^^ 0xFFFF

/-! ## The iClass tag-emulation dispatcher `doIClassSimulation`
(iclass.c:780-1244)

Command opcodes and simulation-mode numbers come from the missing
`include/protocols.h`; the values below are the PicoPass opcodes, the three of
them that the spec pins down explicitly being `0a` (ActivateAll), `0c`
(Identify/Read) and `81` (Select). -/

/-- Modelled from the spec: `ICLASS_CMD_ACTALL` from the missing protocols.h. -/
def ICLASS_CMD_ACTALL : Nat := 0x0A

/-- Modelled from the spec: `ICLASS_CMD_READ_OR_IDENTIFY` from the missing
protocols.h. -/
def ICLASS_CMD_READ_OR_IDENTIFY : Nat := 0x0C

/-- Modelled from the spec: `ICLASS_CMD_SELECT` from the missing protocols.h. -/
def ICLASS_CMD_SELECT : Nat := 0x81

/-- Modelled from the spec: `ICLASS_CMD_PAGESEL` from the missing protocols.h. -/
def ICLASS_CMD_PAGESEL : Nat := 0x84

/-- Modelled from the spec: `ICLASS_CMD_READCHECK_KD` from the missing
protocols.h (the code's comment gives `88 02`). -/
def ICLASS_CMD_READCHECK_KD : Nat := 0x88

/-- Modelled from the spec: `ICLASS_CMD_READCHECK_KC` from the missing
protocols.h (the code's comment gives `18 02`). -/
def ICLASS_CMD_READCHECK_KC : Nat := 0x18

/-- Modelled from the spec: `ICLASS_CMD_CHECK_KD` from the missing protocols.h
(`iClass_Check` elsewhere in iclass.c sends `05` for the debit-key check). -/
def ICLASS_CMD_CHECK_KD : Nat := 0x05

/-- Modelled from the spec: `ICLASS_CMD_CHECK_KC` from the missing
protocols.h. -/
def ICLASS_CMD_CHECK_KC : Nat := 0x15

/-- Modelled from the spec: `ICLASS_CMD_HALT` from the missing protocols.h. -/
def ICLASS_CMD_HALT : Nat := 0x00

/-- Modelled from the spec: `ICLASS_CMD_UPDATE` from the missing protocols.h. -/
def ICLASS_CMD_UPDATE : Nat := 0x87

/-- Modelled from the spec: `ICLASS_CMD_READ4` from the missing protocols.h
(the code comments it as `0x06`). -/
def ICLASS_CMD_READ4 : Nat := 0x06

/-- Modelled from the spec: `ICLASS_SIM_MODE_CSN` from the missing
protocols.h. -/
def ICLASS_SIM_MODE_CSN : Nat := 0

/-- Modelled from the spec: `ICLASS_SIM_MODE_CSN_DEFAULT` from the missing
protocols.h. -/
def ICLASS_SIM_MODE_CSN_DEFAULT : Nat := 1

/-- Modelled from the spec: `ICLASS_SIM_MODE_READER_ATTACK` from the missing
protocols.h. -/
def ICLASS_SIM_MODE_READER_ATTACK : Nat := 2

/-- Modelled from the spec: `ICLASS_SIM_MODE_FULL` from the missing
protocols.h. -/
def ICLASS_SIM_MODE_FULL : Nat := 3

/-- Modelled from the spec: `ICLASS_SIM_MODE_EXIT_AFTER_MAC` from the missing
protocols.h. -/
def ICLASS_SIM_MODE_EXIT_AFTER_MAC : Nat := 4

/-- The dispatcher's `chip_state` (iclass.c:953). -/
inductive ChipState
  | idle
  | activated
  | selected
  | halted
deriving DecidableEq, Repr

/-- Modelled from the spec: the authentication cipher state (`State` of the
missing `optimized_cipher.*`).  The spec treats it as an opaque capability
with call contract `derive(challenge[8], key[8]) -> CipherState`
(`opt_doTagMAC_1`); the free model records exactly the derivation inputs.
`uninit` stands for a cell of the stack arrays `cipher_state_KD[8]` /
`cipher_state_KC[8]` that was never written. -/
inductive CipherSt
  | uninit
  | derived (cc : List Nat) (key : List Nat)
deriving DecidableEq, Repr

/-- Which of the two diversified keys / cipher-state arrays a pointer points
into (`cipher_state = &cipher_state_KD[p]`, `diversified_key =
diversified_key_d`). -/
inductive KeySel
  | kd
  | kc
deriving DecidableEq, Repr

/-- A response of the dispatcher: `resp_sof` (SOF-only modulation), a normal
response prepared with `CodeIso15693AsTag data`, or the 4-byte Check MAC
`opt_doTagMAC_2(state, nonce, out, key)`, which is modelled opaquely by its
inputs (spec contract `respond(state, reader_nonce[4]) -> mac[4]`, the code
also passing the selected diversified key). -/
inductive IClassResp
  | sof
  | tag (data : List Nat)
  | mac (st : CipherSt) (nr : List Nat) (key : List Nat)
deriving DecidableEq, Repr

/-- Read `n` bytes of emulator memory at `addr` (`emulator + addr`). -/
def emRead (em : Nat → Nat) (addr n : Nat) : List Nat :=
  (List.range n).map (fun i => em (addr + i))

/-- Write a byte string into emulator memory at `addr` (`memcpy`). -/
def emWrite (em : Nat → Nat) (addr : Nat) (data : List Nat) : Nat → Nat :=
  fun a => if addr ≤ a ∧ a < addr + data.length then data.getD (a - addr) 0 else em a

/-- The session state of `doIClassSimulation`: the locals of iclass.c:780-953
live for the whole session.  The static per-session data (CSN, anticollision
CSN, configuration block, the all-ones and issuer-area blocks, page geometry)
is kept alongside the mutable state (chip state, current page, e-purse,
diversified keys, cipher-state arrays, the two pointers, personalization flag,
emulator memory, and the `reader_mac_buf` capture). -/
structure IClassSess where
  mode : Nat
  hasMacBuf : Bool
  em : Nat → Nat
  csn_data : List Nat
  anticoll_data : List Nat
  conf_block : List Nat
  ff_data : List Nat
  aia_data : List Nat
  page_size : Nat
  max_page : Nat
  personalization_mode : Bool
  current_page : Nat
  card_challenge_data : List Nat
  diversified_key_d : List Nat
  diversified_key_c : List Nat
  cipher_state_KD : Nat → CipherSt
  cipher_state_KC : Nat → CipherSt
  cipher_state : KeySel × Nat
  diversified_key : KeySel
  chip_state : ChipState
  mac_buf_cc : List Nat
  mac_buf_nrmac : List Nat
  exitLoop : Bool

/-- The cipher state the `cipher_state` pointer refers to. -/
def cipherSel (s : IClassSess) : CipherSt :=
  match s.cipher_state with
  | (.kd, p) => s.cipher_state_KD p
  | (.kc, p) => s.cipher_state_KC p

/-- The diversified key the `diversified_key` pointer refers to. -/
def keyOfSel (s : IClassSess) : List Nat :=
  match s.diversified_key with
  | .kd => s.diversified_key_d
  | .kc => s.diversified_key_c

/-- The session-setup prologue of `doIClassSimulation` (iclass.c:780-858):
CSN and anticollision CSN with CRCs, configuration block (default or from
emulator page 0 in full-sim mode), e-purse and diversified keys, page
geometry from the configuration block, the initial `reader_mac_buf` capture,
and the precomputed cipher states -- page 0 always, pages `1 ≤ i < max_page`
additionally in full-sim mode; all other array cells stay uninitialized. -/
def initIClass (simulationMode : Nat) (hasMacBuf : Bool) (em : Nat → Nat) :
    IClassSess :=
  let csn := emRead em 0 8
  let conf0 : List Nat :=
    if simulationMode = ICLASS_SIM_MODE_FULL then emRead em 8 8
    else [0x12, 0xFF, 0xFF, 0xFF, 0x7F, 0x1F, 0xFF, 0x3C]
  let cc :=
    if simulationMode = ICLASS_SIM_MODE_FULL then emRead em 16 8
    else [0xfe, 0xff, 0xff, 0xff, 0xff, 0xff, 0xff, 0xff]
  let kd :=
    if simulationMode = ICLASS_SIM_MODE_FULL then emRead em 24 8
    else List.replicate 8 0
  let kc :=
    if simulationMode = ICLASS_SIM_MODE_FULL then emRead em 32 8
    else List.replicate 8 0
  let page_size := if conf0.getD 5 0 &&& 0x80 ≠ 0 then 256 * 8 else 32 * 8
  let max_page := if conf0.getD 4 0 &&& 0x10 ≠ 0 then 0 else 7
  { mode := simulationMode
    hasMacBuf := hasMacBuf
    em := em
    csn_data := appendCrc csn
    anticoll_data := appendCrc (rotateCSN csn)
    conf_block := appendCrc conf0
    ff_data := appendCrc [0xFF, 0xFF, 0xFF, 0xFF, 0xFF, 0xFF, 0xFF, 0xFF]
    aia_data := appendCrc [0xFF, 0xFF, 0xFF, 0xFF, 0xFF, 0xFF, 0xFF, 0xFF]
    page_size := page_size
    max_page := max_page
    personalization_mode := conf0.getD 7 0 &&& 0x80 ≠ 0
    current_page := 0
    card_challenge_data := cc
    diversified_key_d := kd
    diversified_key_c := kc
    cipher_state_KD := fun i =>
      if i = 0 then .derived cc kd
      else if simulationMode = ICLASS_SIM_MODE_FULL ∧ 1 ≤ i ∧ i < max_page then
        .derived (emRead em (i * page_size + 8 * 2) 8) (emRead em (i * page_size + 8 * 3) 8)
      else .uninit
    cipher_state_KC := fun i =>
      if i = 0 then .derived cc kc
      else if simulationMode = ICLASS_SIM_MODE_FULL ∧ 1 ≤ i ∧ i < max_page then
        .derived (emRead em (i * page_size + 8 * 2) 8) (emRead em (i * page_size + 8 * 4) 8)
      else .uninit
    cipher_state := (.kd, 0)
    diversified_key := .kd
    chip_state := .idle
    mac_buf_cc := if hasMacBuf then cc else []
    mac_buf_nrmac := []
    exitLoop := false }

/-- The read-block branch of the dispatcher (iclass.c:1013-1073), reached for
`ICLASS_CMD_READ_OR_IDENTIFY` with length 4 in state SELECTED.  Only the
EXIT_AFTER_MAC and FULL simulation modes answer. -/
def iclassReadBlock (s : IClassSess) (blockNo : Nat) :
    IClassSess × Option IClassResp :=
  if s.mode = ICLASS_SIM_MODE_EXIT_AFTER_MAC then
    if blockNo = 0 then (s, some (.tag s.csn_data))
    else if blockNo = 1 then (s, some (.tag s.conf_block))
    else if blockNo = 2 then
      ({s with mac_buf_cc := if s.hasMacBuf then s.card_challenge_data else s.mac_buf_cc},
       some (.tag s.card_challenge_data))
    else if blockNo = 3 ∨ blockNo = 4 then (s, some (.tag s.ff_data))
    else if blockNo = 5 then (s, some (.tag s.aia_data))
    else (s, none)
  else if s.mode = ICLASS_SIM_MODE_FULL then
    if blockNo = 3 ∨ blockNo = 4 then (s, some (.tag s.ff_data))
    else
      (s, some (.tag (appendCrc
        (emRead s.em (s.current_page * s.page_size + 8 * blockNo) 8))))
  else (s, none)

/-- The update branch of the dispatcher (iclass.c:1140-1190), reached for
`ICLASS_CMD_UPDATE` with length 12 or 14 in state SELECTED.  `d8` is
`receivedCmd+2`.  Block 2 replaces the e-purse and rederives both cipher
states of the current page; blocks 3/4 overwrite (personalization mode) or
XOR (application mode) the corresponding key and rederive that key's cipher
state; any other block only touches emulator memory in full-sim mode.  The
reply always echoes the received data plus CRC. -/
def iclassUpdate (s : IClassSess) (blockNo : Nat) (d8 : List Nat) :
    IClassSess × Option IClassResp :=
  let resp := some (IClassResp.tag (appendCrc d8))
  if blockNo = 2 then
    ({s with card_challenge_data := d8,
             cipher_state_KD := fun i =>
               if i = s.current_page then .derived d8 s.diversified_key_d
               else s.cipher_state_KD i,
             cipher_state_KC := fun i =>
               if i = s.current_page then .derived d8 s.diversified_key_c
               else s.cipher_state_KC i,
             em := if s.mode = ICLASS_SIM_MODE_FULL then
                     emWrite s.em (s.current_page * s.page_size + 8 * 2) d8
                   else s.em},
     resp)
  else if blockNo = 3 then
    let kd2 := if s.personalization_mode then d8
               else (List.range 8).map
                 (fun i => s.diversified_key_d.getD i 0 ^^^ d8.getD i 0)
    ({s with diversified_key_d := kd2,
             cipher_state_KD := fun i =>
               if i = s.current_page then .derived s.card_challenge_data kd2
               else s.cipher_state_KD i,
             em := if s.mode = ICLASS_SIM_MODE_FULL then
                     emWrite s.em (s.current_page * s.page_size + 8 * 3) kd2
                   else s.em},
     resp)
  else if blockNo = 4 then
    let kc2 := if s.personalization_mode then d8
               else (List.range 8).map
                 (fun i => s.diversified_key_c.getD i 0 ^^^ d8.getD i 0)
    ({s with diversified_key_c := kc2,
             cipher_state_KC := fun i =>
               if i = s.current_page then .derived s.card_challenge_data kc2
               else s.cipher_state_KC i,
             em := if s.mode = ICLASS_SIM_MODE_FULL then
                     emWrite s.em (s.current_page * s.page_size + 8 * 4) kc2
                   else s.em},
     resp)
  else
    ({s with em := if s.mode = ICLASS_SIM_MODE_FULL then
                     emWrite s.em (s.current_page * s.page_size + 8 * blockNo) d8
                   else s.em},
     resp)

/-- One iteration of the `doIClassSimulation` command loop
(iclass.c:955-1237): dispatch one received frame, returning the new session
state and the response (NULL modulated_response = no reply).  The branch
order, the command-byte and exact-length tests, and the state guards follow
the source's if-else chain; no CRC of the received frame is ever checked. -/
def iclassStep (s : IClassSess) (frame : List Nat) :
    IClassSess × Option IClassResp :=
  let c := frame.headD 0
  let len := frame.length
  if c = ICLASS_CMD_ACTALL ∧ len = 1 then
    if s.chip_state ≠ .halted then ({s with chip_state := .activated}, some .sof)
    else (s, none)
  else if c = ICLASS_CMD_READ_OR_IDENTIFY ∧ len = 1 then
    if s.chip_state = .selected ∨ s.chip_state = .activated then
      (s, some (.tag s.anticoll_data))
    else (s, none)
  else if c = ICLASS_CMD_SELECT ∧ len = 9 then
    if s.chip_state = .activated ∨ s.chip_state = .selected then
      if frame.drop 1 = s.anticoll_data.take 8 then
        ({s with chip_state := .selected}, some (.tag s.csn_data))
      else ({s with chip_state := .idle}, none)
    else if s.chip_state = .halted then
      if frame.drop 1 = s.csn_data.take 8 then
        ({s with chip_state := .selected}, some (.tag s.csn_data))
      else (s, none)
    else (s, none)
  else if c = ICLASS_CMD_READ_OR_IDENTIFY ∧ len = 4 then
    if s.chip_state = .selected then iclassReadBlock s (frame.getD 1 0)
    else (s, none)
  else if (c = ICLASS_CMD_READCHECK_KD ∨ c = ICLASS_CMD_READCHECK_KC) ∧
          frame.getD 1 0 = 0x02 ∧ len = 2 then
    if s.chip_state = .selected then
      if c = ICLASS_CMD_READCHECK_KD then
        ({s with cipher_state := (.kd, s.current_page), diversified_key := .kd},
         some (.tag s.card_challenge_data))
      else
        ({s with cipher_state := (.kc, s.current_page), diversified_key := .kc},
         some (.tag s.card_challenge_data))
    else (s, none)
  else if (c = ICLASS_CMD_CHECK_KC ∨ c = ICLASS_CMD_CHECK_KD) ∧ len = 9 then
    if s.chip_state = .selected then
      if s.mode = ICLASS_SIM_MODE_FULL then
        (s, some (.mac (cipherSel s) ((frame.drop 1).take 4) (keyOfSel s)))
      else if s.mode = ICLASS_SIM_MODE_EXIT_AFTER_MAC then
        ({s with mac_buf_nrmac := if s.hasMacBuf then (frame.drop 1).take 8
                                  else s.mac_buf_nrmac,
                 exitLoop := true}, none)
      else (s, none)
    else (s, none)
  else if c = ICLASS_CMD_HALT ∧ len = 1 then
    if s.chip_state = .selected then ({s with chip_state := .halted}, some .sof)
    else (s, none)
  else if s.mode = ICLASS_SIM_MODE_FULL ∧ c = ICLASS_CMD_READ4 ∧ len = 4 then
    if s.chip_state = .selected then
      (s, some (.tag (appendCrc
        (emRead s.em (s.current_page * s.page_size + (frame.getD 1 0) * 8) 32))))
    else (s, none)
  else if c = ICLASS_CMD_UPDATE ∧ (len = 12 ∨ len = 14) then
    if s.chip_state = .selected then
      iclassUpdate s (frame.getD 1 0) ((frame.drop 2).take 8)
    else (s, none)
  else if c = ICLASS_CMD_PAGESEL ∧ len = 4 then
    if s.chip_state = .selected then
      if s.mode = ICLASS_SIM_MODE_FULL ∧ 0 < s.max_page then
        let p := frame.getD 1 0
        let conf2 := emRead s.em (p * s.page_size + 8 * 1) 8
        ({s with current_page := p,
                 diversified_key_d := emRead s.em (p * s.page_size + 8 * 3) 8,
                 diversified_key_c := emRead s.em (p * s.page_size + 8 * 4) 8,
                 cipher_state := (.kd, p),
                 personalization_mode := conf2.getD 7 0 &&& 0x80 ≠ 0},
         some (.tag (appendCrc conf2)))
      else (s, none)
    else (s, none)
  else (s, none)

/-- The dispatcher loop over a command sequence (`while (!exitLoop)`),
collecting the responses. -/
def iclassRun (s : IClassSess) : List (List Nat) → IClassSess × List (Option IClassResp)
  | [] => (s, [])
  | f :: fs =>
      if s.exitLoop then (s, [])
      else
        let t := iclassStep s f
        let r := iclassRun t.1 fs
        (r.1, t.2 :: r.2)

/-- An iClass command frame whose 2-byte trailer is the iClass CRC of the
frame's payload after the opcode: the convention of the commands the client
sends (the hardcoded block-1 read `0c 01 fa 22` at iclass.c:1404 carries the
CRC `fa 22` of its payload `01`). -/
def iclassCmdCrcOk (l : List Nat) : Prop :=
  appendCrc ((l.drop 1).take (l.length - 3)) = l.drop 1

/-- Emulator memory holding only the default CSN `03 1f ec 8a f7 ff 12 e0`
(`memcpy(emulator, csn_crc, 8)` in `SimulateIClass`, iclass.c:1283-1288). -/
def emCSN : Nat → Nat := fun a => defaultCSN.getD a 0

/-- Emulator memory for a full-simulation session: the default CSN, a
configuration block giving page size 32 blocks and `max_page = 7`, an e-purse,
the two diversified keys, and arbitrary bytes beyond. -/
def emFull : Nat → Nat := fun a =>
  ([0x03, 0x1f, 0xec, 0x8a, 0xf7, 0xff, 0x12, 0xe0,
    0x12, 0xFF, 0xFF, 0xFF, 0x6F, 0x1F, 0xFF, 0x3C,
    0xfe, 0xff, 0xff, 0xff, 0xff, 0xff, 0xff, 0xff,
    0x11, 0x22, 0x33, 0x44, 0x55, 0x66, 0x77, 0x88,
    0x99, 0xaa, 0xbb, 0xcc, 0xdd, 0xee, 0xff, 0x00]).getD a ((a * 7) % 256)

/-- ActivateAll, Select, then PageSel for page 8 -- one page beyond the
page range `[0, 7]` of an 8-page card. -/
def c2frames : List (List Nat) :=
  [[0x0A], 0x81 :: rotateCSN defaultCSN, [0x84, 0x08, 0x00, 0x00]]

/-- The C6 scenario: ActivateAll (`0a`), Identify (`0c`), Select with the
rotated CSN (`81` + 8 bytes), then the block-1 read request `0c 01 fa 22`. -/
def c6frames : List (List Nat) :=
  [[0x0A], [0x0C], 0x81 :: rotateCSN defaultCSN, [0x0C, 0x01, 0xfa, 0x22]]

/-- ActivateAll, Select, then PageSel for page 7 -- the last valid page of an
8-page card, whose cipher state the session prologue never precomputes
(its loop runs `for (int i = 1; i < max_page; i++)`). -/
def c7frames : List (List Nat) :=
  [[0x0A], 0x81 :: rotateCSN defaultCSN, [0x84, 0x07, 0x00, 0x00]]

/-- A session in EXIT_AFTER_MAC simulation mode driven to the SELECTED state
by ActivateAll and Select. -/
def c3sess : IClassSess :=
  (iclassRun (initIClass ICLASS_SIM_MODE_EXIT_AFTER_MAC true emCSN)
    [[0x0A], 0x81 :: rotateCSN defaultCSN]).1

/-! Constants of the ISO15693 protocol layer. -/

/-- Modelled from the spec: request-flag bit 1 from the missing
`common/iso15693tools.h`. -/
def ISO15693_REQ_DATARATE_HIGH : Nat := 0x02

/-- Modelled from the spec: request-flag bit 2. -/
def ISO15693_REQ_INVENTORY : Nat := 0x04

/-- Modelled from the spec: request-flag bit 4. -/
def ISO15693_REQ_SELECT : Nat := 0x10

/-- Modelled from the spec: request-flag bit 5. -/
def ISO15693_REQ_ADDRESS : Nat := 0x20

/-- Modelled from the spec: request-flag bit 6. -/
def ISO15693_REQ_OPTION : Nat := 0x40

/-- Modelled from the spec: inventory-flag bit 4. -/
def ISO15693_REQINV_AFI : Nat := 0x10

/-- Modelled from the spec: command codes from the missing
`common/iso15693tools.h` (the ISO15693-3 mandatory and optional commands). -/
def ISO15693_INVENTORY : Nat := 0x01

def ISO15693_STAYQUIET : Nat := 0x02

def ISO15693_READBLOCK : Nat := 0x20

def ISO15693_WRITEBLOCK : Nat := 0x21

def ISO15693_LOCKBLOCK : Nat := 0x22

def ISO15693_READ_MULTI_BLOCK : Nat := 0x23

def ISO15693_SELECT : Nat := 0x25

def ISO15693_RESET_TO_READY : Nat := 0x26

def ISO15693_WRITE_AFI : Nat := 0x27

def ISO15693_LOCK_AFI : Nat := 0x28

def ISO15693_WRITE_DSFID : Nat := 0x29

def ISO15693_LOCK_DSFID : Nat := 0x2A

def ISO15693_GET_SYSTEM_INFO : Nat := 0x2B

def ISO15693_READ_MULTI_SECSTATUS : Nat := 0x2C

/-- Modelled from the spec: response codes. -/
def ISO15693_NOERROR : Nat := 0x00

def ISO15693_RES_ERROR : Nat := 0x01

def ISO15693_ERROR_CMD_NOT_SUP : Nat := 0x01

def ISO15693_ERROR_BLOCK_UNAVAILABLE : Nat := 0x10

def ISO15693_ERROR_BLOCK_LOCKED_ALREADY : Nat := 0x11

def ISO15693_ERROR_BLOCK_LOCKED : Nat := 0x12

/-- `ISO15693_MAX_RESPONSE_LENGTH` (iso15693.c:94): the size of the `recv`
response buffer, sized for a read-multiple-blocks of 64 blocks of 256 bits. -/
def ISO15693_MAX_RESPONSE_LENGTH : Nat := 2052

/-- Modelled from the spec: `Iso15693AddCrc` from the missing
`common/iso15693tools.c`: append the ISO15693 CRC low byte first. -/
def iso15AddCrc (d : List Nat) : List Nat :=
  d ++ [iso15693Crc d &&& 0xFF, iso15693Crc d >>> 8]

/-- The state of `SimTagIso15693` (iso15693.c:1891-2204): the three mode
flags and the emulated tag memory (`BigBuf_get_EM_addr()`), laid out by the
pointer arithmetic of lines 1911-1921: UID at 0-7, DSFID at 8, its lock at 9,
AFI at 10, its lock at 11, bytes-per-page at 12, page count at 13, IC at 14,
the per-page locks from 15, and the page data from `16 + mem 13`. -/
structure Sim15 where
  mem : Nat → Nat
  highRate : Bool
  selected : Bool
  quiet : Bool

/-- The command switch of `SimTagIso15693` (iso15693.c:2009-2177): the state
after the command, the response payload (before the CRC is appended; empty
for StayQuiet), and the error code (0 = none).  `cpt` is 2, or 10 for an
addressed request.  The `recv` buffer is taken zero-filled where the loop
reads bytes it did not write. -/
def sim15Switch (s : Sim15) (cmd : List Nat) (cpt : Nat) : Sim15 × List Nat × Nat :=
  let b0 := cmd.getD 0 0
  let op := cmd.getD 1 0
  let pages := s.mem 13
  let bpp := s.mem 12
  if op = ISO15693_INVENTORY then
    (s, ISO15693_NOERROR :: s.mem 8 :: emRead s.mem 0 8, 0)
  else if op = ISO15693_STAYQUIET then
    ({s with quiet := true}, [], 0)
  else if op = ISO15693_READBLOCK then
    let pageNum := cmd.getD cpt 0
    if pageNum ≥ pages then (s, [], ISO15693_ERROR_BLOCK_UNAVAILABLE)
    else
      (s, ISO15693_NOERROR ::
          ((if b0 &&& ISO15693_REQ_OPTION ≠ 0 then [s.mem (15 + pageNum)] else []) ++
           emRead s.mem (16 + pages + pageNum * bpp) bpp), 0)
  else if op = ISO15693_WRITEBLOCK then
    let pageNum := cmd.getD cpt 0
    if pageNum ≥ pages then (s, [], ISO15693_ERROR_BLOCK_UNAVAILABLE)
    else
      ({s with mem := emWrite s.mem (16 + pages + pageNum * bpp)
                 ((List.range bpp).map (fun i => cmd.getD (i + cpt + 1) 0))},
       [ISO15693_NOERROR], 0)
  else if op = ISO15693_LOCKBLOCK then
    let pageNum := cmd.getD cpt 0
    if pageNum ≥ pages then (s, [], ISO15693_ERROR_BLOCK_UNAVAILABLE)
    else if s.mem (15 + pageNum) ≠ 0 then (s, [], ISO15693_ERROR_BLOCK_LOCKED_ALREADY)
    else ({s with mem := emWrite s.mem (15 + pageNum) [1]}, [ISO15693_NOERROR], 0)
  else if op = ISO15693_READ_MULTI_BLOCK then
    let pageNum := cmd.getD cpt 0
    let nbPages := cmd.getD (cpt + 1) 0
    if pageNum + nbPages ≥ pages then (s, [], ISO15693_ERROR_BLOCK_UNAVAILABLE)
    else
      let total := (nbPages + 1) * bpp
      let full := ISO15693_NOERROR ::
        (List.range total).map (fun i =>
          if i + 4 < ISO15693_MAX_RESPONSE_LENGTH
          then s.mem (16 + pages + pageNum * bpp + i) else 0)
      (s, full.take (if 1 + total + 3 > ISO15693_MAX_RESPONSE_LENGTH
                     then ISO15693_MAX_RESPONSE_LENGTH - 3 else 1 + total), 0)
  else if op = ISO15693_WRITE_AFI then
    if s.mem 11 ≠ 0 then (s, [], ISO15693_ERROR_BLOCK_LOCKED)
    else ({s with mem := emWrite s.mem 10 [cmd.getD cpt 0]}, [ISO15693_NOERROR], 0)
  else if op = ISO15693_LOCK_AFI then
    if s.mem 11 ≠ 0 then (s, [], ISO15693_ERROR_BLOCK_LOCKED_ALREADY)
    else ({s with mem := emWrite s.mem 11 [1]}, [ISO15693_NOERROR], 0)
  else if op = ISO15693_WRITE_DSFID then
    if s.mem 9 ≠ 0 then (s, [], ISO15693_ERROR_BLOCK_LOCKED)
    else ({s with mem := emWrite s.mem 8 [cmd.getD cpt 0]}, [ISO15693_NOERROR], 0)
  else if op = ISO15693_LOCK_DSFID then
    if s.mem 9 ≠ 0 then (s, [], ISO15693_ERROR_BLOCK_LOCKED_ALREADY)
    else ({s with mem := emWrite s.mem 9 [1]}, [ISO15693_NOERROR], 0)
  else if op = ISO15693_SELECT then
    ({s with selected := true, quiet := false}, [ISO15693_NOERROR], 0)
  else if op = ISO15693_RESET_TO_READY then
    ({s with quiet := false, selected := false}, [ISO15693_NOERROR], 0)
  else if op = ISO15693_GET_SYSTEM_INFO then
    (s, ISO15693_NOERROR :: 0x0f :: (emRead s.mem 0 8 ++
        [s.mem 8, s.mem 10, (pages + 255) % 256, (bpp + 255) % 256, s.mem 14]), 0)
  else if op = ISO15693_READ_MULTI_SECSTATUS then
    let pageNum := cmd.getD cpt 0
    let nbPages := cmd.getD (cpt + 1) 0
    if pageNum + nbPages ≥ pages then (s, [], ISO15693_ERROR_BLOCK_UNAVAILABLE)
    else (s, ISO15693_NOERROR ::
      (List.range (nbPages + 1)).map (fun i => s.mem (15 + pageNum + i)), 0)
  else (s, [], ISO15693_ERROR_CMD_NOT_SUP)

/-- The reply epilogue of the loop (iso15693.c:2180-2198): an error turns the
response into the two-byte error frame; any nonempty response gets its CRC
(`Iso15693AddCrc`) and is transmitted; otherwise nothing is sent. -/
def sim15Reply (s : Sim15) (cmd : List Nat) (cpt : Nat) : Sim15 × Option (List Nat) :=
  let r := sim15Switch s cmd cpt
  if r.2.2 ≠ 0 then (r.1, some (iso15AddCrc [ISO15693_RES_ERROR, r.2.2]))
  else if r.2.1.length > 0 then (r.1, some (iso15AddCrc r.2.1))
  else (r.1, none)

/-- The request handling after the CRC gate (iso15693.c:1954-2198): the
data-rate flag sets `highRate`; an inventory request outside the quiet state
answers (unless an AFI is demanded and matches neither the tag's AFI nor 0);
otherwise the Select flag drops the request when not selected (and clears the
selection), an addressed request with a foreign UID is dropped (clearing the
selection if it was a Select command), an unaddressed request is dropped in
the quiet state, and the command switch runs on what remains. -/
def sim15Process (s0 : Sim15) (cmd : List Nat) : Sim15 × Option (List Nat) :=
  let b0 := cmd.getD 0 0
  let s := {s0 with highRate := b0 &&& ISO15693_REQ_DATARATE_HIGH ≠ 0}
  if b0 &&& ISO15693_REQ_INVENTORY ≠ 0 ∧ ¬ s.quiet then
    if b0 &&& ISO15693_REQINV_AFI ≠ 0 ∧ cmd.getD 2 0 ≠ s.mem 10 ∧ cmd.getD 2 0 ≠ 0 then
      (s, none)
    else (s, some (iso15AddCrc (ISO15693_NOERROR :: s.mem 8 :: emRead s.mem 0 8)))
  else
    if b0 &&& ISO15693_REQ_SELECT ≠ 0 ∧ ¬ s.selected then (s, none)
    else
      let s1 := if b0 &&& ISO15693_REQ_SELECT ≠ 0 then {s with selected := false} else s
      if b0 &&& ISO15693_REQ_ADDRESS ≠ 0 then
        if (List.range 8).map (fun i => cmd.getD (2 + i) 0) ≠ emRead s1.mem 0 8 then
          (if cmd.getD 1 0 = ISO15693_SELECT then {s1 with selected := false} else s1, none)
        else sim15Reply s1 cmd 10
      else if s1.quiet then (s1, none)
      else sim15Reply s1 cmd 2

/-- One iteration of the `SimTagIso15693` loop (iso15693.c:1928-2198) on one
received command frame: a frame of at most 3 bytes is dropped, a frame whose
last two bytes are not the ISO15693 CRC of the rest is dropped silently
(`CrcFail`), and only then is the request processed. -/
def sim15Step (s : Sim15) (cmd : List Nat) : Sim15 × Option (List Nat) :=
  if cmd.length ≤ 3 then (s, none)
  else if iso15693Crc (cmd.take (cmd.length - 2)) &&& 0xFF ≠ cmd.getD (cmd.length - 2) 0 ∨
          iso15693Crc (cmd.take (cmd.length - 2)) >>> 8 ≠ cmd.getD (cmd.length - 1) 0 then
    (s, none)
  else sim15Process s cmd

/-- A received frame that ends in the valid ISO15693 CRC of its initial part. -/
def iso15CrcOk (cmd : List Nat) : Prop :=
  iso15693Crc (cmd.take (cmd.length - 2)) &&& 0xFF = cmd.getD (cmd.length - 2) 0 ∧
  iso15693Crc (cmd.take (cmd.length - 2)) >>> 8 = cmd.getD (cmd.length - 1) 0

instance (cmd : List Nat) : Decidable (iso15CrcOk cmd) := by
  unfold iso15CrcOk; infer_instance

instance (l : List Nat) : Decidable (iclassCmdCrcOk l) := by
  unfold iclassCmdCrcOk; infer_instance

/-! ## Claim C4 auxiliary definitions: the encoder output in symbol and
slot form, and the two end-to-end decode runs. -/

/-- The four 2-bit symbols of a byte, least significant pair first, as
`CodeIso15693AsReader` emits them. -/
def symsOf (c : Nat) : List Nat :=
  (List.range 4).flatMap (fun j => readerSymbol ((c >>> (2 * j)) &&& 0x03))

/-- The 256 two-bit slots of a byte in the 1-out-of-256 coding. -/
def slotBits (c : Nat) : List Bool :=
  (List.range 256).flatMap (fun j => if c = j then [false, true] else [false, false])

/-- The complete decode run of the 1-out-of-4 reader coding: the leading
idle-carrier sample, then the modulation samples of the encoded frame. -/
def c4runA (bs : List Nat) (M : Nat) : DecodeReader × Bool :=
  readerRun (decodeReaderInit M)
    (true :: toSamples ((codeIso15693AsReader bs).flatMap byteBits))

/-- The complete decode run of the 1-out-of-256 reader coding: the leading
idle-carrier sample, then the modulation samples of the encoded frame. -/
def c4runB (bs : List Nat) (M : Nat) : DecodeReader × Bool :=
  readerRun (decodeReaderInit M) (true :: toSamples (codeIso15693AsReader256Bits bs))

/-! ## Claim C1: output-buffer writes versus the caller-provided capacity

In both receive states the store `output[byteCount++] = shiftReg` happens
before the check `byteCount > byteCountMax`, so a frame one byte longer than
the capacity stores a byte at index exactly `byteCountMax` -- the first index
past a `max_len`-byte buffer -- before the decoder gives up.  The run below
feeds the 1-out-of-4 encoding of the two bytes AA BB to a decoder initialized
with capacity 1 and exhibits the store at index 1. -/

set_option maxRecDepth 10000 in
/-- C1: the claim fails on the code.  Decoding a 2-byte frame with capacity 1
stores bytes at indices 0 and 1: the second store is at index 1, which is not
strictly below the capacity 1 (it is one past the end of a 1-byte buffer).
The decoder then resets, so no frame is reported (the overflow of the
1-out-of-4 reader path is silent). -/
theorem c1_write_at_capacity :
    (readerRun (decodeReaderInit 1) c1Samples).1.writes = [(0, 0xAA), (1, 0xBB)] ∧
    (decodeReaderInit 1).byteCountMax = 1 ∧
    (readerRun (decodeReaderInit 1) c1Samples).2 = false := by decide

/-! ## Claim C8: frame completion requires an EOF pattern and a nonempty frame -/

/-- In `rx4Tail` an already-reset decoder stays in `STATE_READER_UNSYNCD`. -/
lemma rx4Tail_state_keep (s1 s2 : Nat) (d : DecodeReader) (h : d.state = .unsyncd) :
    (rx4Tail s1 s2 d).state = .unsyncd := by
  unfold rx4Tail
  split_ifs <;> simp_all <;> split_ifs <;> simp_all

/-- In `rx256Tail` an already-reset decoder stays in `STATE_READER_UNSYNCD`. -/
lemma rx256Tail_state_keep (s1 s2 : Nat) (d : DecodeReader) (h : d.state = .unsyncd) :
    (rx256Tail s1 s2 d).state = .unsyncd := by
  unfold rx256Tail
  split_ifs <;> simp_all <;> split_ifs <;> simp_all

set_option maxHeartbeats 4000000 in
/-- C8: `Handle15693SampleFromReader` returns "frame complete" (true) only
from a receive-data state, at the end of an 8-sample period whose sample sums
show the EOF pattern (first half ≤ 1, second half ≥ 3), and only when at least
one byte has been decoded; and whenever an EOF pattern completes a period with
zero decoded bytes, no frame is emitted and the decoder is left in the
Unsynced state. -/
theorem c8_eof_needs_nonempty_frame :
    (∀ (b : Bool) (d : DecodeReader), (readerStep b d).2 = true →
      (d.state = .rxOneOutOf4 ∨ d.state = .rxOneOutOf256) ∧
      d.posCount + 1 = 8 ∧ d.sum1 ≤ 1 ∧ 3 ≤ d.sum2 + (if b then 1 else 0) ∧
      d.byteCount ≠ 0 ∧ (readerStep b d).1.state = .unsyncd) ∧
    (∀ (b : Bool) (d : DecodeReader),
      (d.state = .rxOneOutOf4 ∨ d.state = .rxOneOutOf256) → d.byteCount = 0 →
      (readerStep b d).2 = false ∧
      (d.posCount + 1 = 8 → d.sum1 ≤ 1 → 3 ≤ d.sum2 + (if b then 1 else 0) →
        (readerStep b d).1.state = .unsyncd)) := by
  constructor
  · intro b d h
    cases b <;> cases hs : d.state <;> simp only [readerStep, hs] at h <;>
      try (revert h; cases d.coding <;> split_ifs <;> simp; done)
    all_goals
      (by_cases hP : d.posCount + 1 = 8
       · rw [if_pos hP] at h
         simp only [hP] at h
         norm_num at h
         split_ifs at h with hE hN <;> try simp at h
         refine ⟨by simp, hP, hE.1, by simpa using hE.2, hN, ?_⟩
         simp only [readerStep, hs, hP]
         norm_num
         rw [if_pos hE, if_neg hN]
       · rw [if_neg hP] at h
         simp at h)
  · intro b d hs h0
    cases b <;>
      rcases hs with hs | hs <;>
      (refine ⟨?_, fun hp h1 h2 => ?_⟩ <;> simp only [readerStep, hs]) <;>
      split_ifs <;>
      first
        | rfl
        | omega
        | exact rx4Tail_state_keep _ _ _ rfl
        | exact rx256Tail_state_keep _ _ _ rfl
        | simp_all

/-- C8 witness: both parts of the theorem applied at concrete decoder states. -/
theorem c8_witness :
    ((c8exA.state = .rxOneOutOf4 ∨ c8exA.state = .rxOneOutOf256) ∧
      c8exA.posCount + 1 = 8 ∧ c8exA.sum1 ≤ 1 ∧
      3 ≤ c8exA.sum2 + (if false then 1 else 0) ∧
      c8exA.byteCount ≠ 0 ∧ (readerStep false c8exA).1.state = .unsyncd) ∧
    ((readerStep false c8exB).2 = false ∧
      (c8exB.posCount + 1 = 8 → c8exB.sum1 ≤ 1 →
        3 ≤ c8exB.sum2 + (if false then 1 else 0) →
        (readerStep false c8exB).1.state = .unsyncd)) :=
  ⟨c8_eof_needs_nonempty_frame.1 false c8exA (by decide),
   c8_eof_needs_nonempty_frame.2 false c8exB (Or.inr rfl) rfl⟩

/-! ## Claim C9: the FSK subcarrier windows -/

/-- C9 counterexample: the two windows are not mutually exclusive -- the
cycle-count value 30 satisfies both window tests. -/
theorem c9_windows_overlap_at_30 : FREQ_IS_484 30 ∧ FREQ_IS_424 30 := by decide

/-- C9 (amended): the two window tests overlap in exactly the boundary value
30; for every other sample value at most one of them holds. -/
theorem c9_windows_exclusive_except_30 (f : Nat) :
    FREQ_IS_484 f → FREQ_IS_424 f → f = 30 := by
  intro h1 h2
  obtain ⟨a, b⟩ := h1
  obtain ⟨c, e⟩ := h2
  omega

/-- C9 witness: the amended theorem applied at the overlap value. -/
theorem c9_witness : (30 : Nat) = 30 :=
  c9_windows_exclusive_except_30 30 (by decide) (by decide)

/-! ## Claim C10: `rotateCSN` and its bijectivity -/

/-- A rotated byte as plain arithmetic: `(x >> 3) | (y << 5)` truncated to
8 bits equals `x / 8 + 32 * (y % 8)` for a byte `x`. -/
lemma rotByte_eq (x y : Nat) (hx : x < 256) :
    ((x >>> 3) ||| (y <<< 5)) % 256 = x / 8 + 32 * (y % 8) := by
  have h1 : x >>> 3 = x / 8 := by rw [Nat.shiftRight_eq_div_pow]
  have h2 : y <<< 5 = 32 * y := by rw [Nat.shiftLeft_eq]; ring
  have h3 : x / 8 < 2 ^ 5 := by omega
  rw [h1, h2, Nat.lor_comm, ← Nat.mul_add_lt_is_or h3 y]
  omega

/-- One byte of `rotateCSNInv (rotateCSN csn)`: rebuilding byte `b` from its
rotated neighbours recovers `b`. -/
lemma invRotComp (a b c : Nat) (ha : a < 256) (hb : b < 256) (hc : c < 256) :
    ((((b >>> 3) ||| (c <<< 5)) % 256 &&& 0x1F) <<< 3) |||
      ((((a >>> 3) ||| (b <<< 5)) % 256) >>> 5) = b := by
  rw [rotByte_eq b c hb, rotByte_eq a b ha]
  have e1 : (b / 8 + 32 * (c % 8)) &&& 0x1F = b / 8 := by
    have := Nat.and_pow_two_sub_one_eq_mod (b / 8 + 32 * (c % 8)) 5
    norm_num at this
    omega
  have e2 : (a / 8 + 32 * (b % 8)) >>> 5 = b % 8 := by
    rw [Nat.shiftRight_eq_div_pow]
    norm_num
    omega
  rw [e1, e2]
  have e3 : (b / 8) <<< 3 = 8 * (b / 8) := by rw [Nat.shiftLeft_eq]; ring
  have h4 : b % 8 < 2 ^ 3 := by omega
  rw [e3, ← Nat.mul_add_lt_is_or h4 (b / 8)]
  omega

/-- `rotateCSNInv` is a left inverse of `rotateCSN` on 8-byte strings. -/
lemma rotInv_cancel : ∀ csn : List Nat, csn.length = 8 → (∀ b ∈ csn, b < 256) →
    rotateCSNInv (rotateCSN csn) = csn := by
  intro csn hlen hb
  match csn, hlen with
  | [a0, a1, a2, a3, a4, a5, a6, a7], _ =>
    simp only [List.mem_cons, List.not_mem_nil, or_false, forall_eq_or_imp,
      forall_eq] at hb
    obtain ⟨h0, h1, h2, h3, h4, h5, h6, h7⟩ := hb
    show rotateCSNInv (rotateCSN [a0, a1, a2, a3, a4, a5, a6, a7]) = _
    simp only [rotateCSN, rotateCSNInv, List.range_succ]
    norm_num
    refine ⟨?_, ?_, ?_, ?_, ?_, ?_, ?_, ?_⟩ <;> apply invRotComp <;> assumption

/-- C10: `rotateCSN` computes byte `i` as `(csn[i] >> 3) | (csn[(i+1)%8] << 5)`
(the 64-bit CSN rotated by 3 bit positions, byte-wise); it has an explicit
inverse on 8-byte strings and is therefore injective, so distinct CSNs have
distinct anticollision forms and the dispatcher's byte-wise Select comparison
identifies the emulated card uniquely. -/
theorem c10_rotateCSN_bijective (csn : List Nat) (hlen : csn.length = 8)
    (hb : ∀ b ∈ csn, b < 256) :
    (∀ i < 8, (rotateCSN csn).getD i 0 =
      ((csn.getD i 0 >>> 3) ||| (csn.getD ((i + 1) % 8) 0 <<< 5)) % 256) ∧
    rotateCSNInv (rotateCSN csn) = csn ∧
    (∀ csn2 : List Nat, csn2.length = 8 → (∀ b ∈ csn2, b < 256) →
      rotateCSN csn = rotateCSN csn2 → csn = csn2) := by
  refine ⟨?_, rotInv_cancel csn hlen hb, ?_⟩
  · intro i hi
    interval_cases i <;> rfl
  · intro csn2 hlen2 hb2 heq
    calc csn = rotateCSNInv (rotateCSN csn) := (rotInv_cancel csn hlen hb).symm
    _ = rotateCSNInv (rotateCSN csn2) := by rw [heq]
    _ = csn2 := rotInv_cancel csn2 hlen2 hb2

/-- C10 witness: the theorem applied to the default CSN. -/
theorem c10_witness :
    (∀ i < 8, (rotateCSN defaultCSN).getD i 0 =
      ((defaultCSN.getD i 0 >>> 3) ||| (defaultCSN.getD ((i + 1) % 8) 0 <<< 5)) % 256) ∧
    rotateCSNInv (rotateCSN defaultCSN) = defaultCSN ∧
    (∀ csn2 : List Nat, csn2.length = 8 → (∀ b ∈ csn2, b < 256) →
      rotateCSN defaultCSN = rotateCSN csn2 → defaultCSN = csn2) :=
  c10_rotateCSN_bijective defaultCSN (by decide) (by decide)

/-! ## Helper lemmas about the iClass dispatcher -/

/-- `AppendCrc` leaves the data bytes in place. -/
lemma appendCrc_take (d : List Nat) : (appendCrc d).take d.length = d := by
  unfold appendCrc
  exact List.take_left _ _

/-- `rotateCSN` always yields 8 bytes. -/
lemma length_rotateCSN (csn : List Nat) : (rotateCSN csn).length = 8 := by
  simp [rotateCSN]

/-- `emRead` yields the requested number of bytes. -/
lemma length_emRead (em : Nat → Nat) (a n : Nat) : (emRead em a n).length = n := by
  simp [emRead]

/-- `AppendCrc` produces a string ending in the valid CRC of its data. -/
lemma iclassCrcOk_appendCrc (d : List Nat) : iclassCrcOk (appendCrc d) := by
  unfold iclassCrcOk
  have h : (appendCrc d).length - 2 = d.length := by
    simp [appendCrc]
  rw [h, appendCrc_take]

/-- The Select branch (iclass.c:989-1000) on a matching anticollision CSN:
the chip goes to SELECTED and replies with the real CSN block. -/
lemma iclassStep_select_match (s : IClassSess)
    (hst : s.chip_state = .activated ∨ s.chip_state = .selected)
    (l : List Nat) (hl : l.length = 8) (hmatch : l = s.anticoll_data.take 8) :
    iclassStep s (0x81 :: l) = ({s with chip_state := .selected}, some (.tag s.csn_data)) := by
  unfold iclassStep
  simp only [List.headD_cons, List.length_cons, hl, List.drop_succ_cons, List.drop_zero,
    ICLASS_CMD_ACTALL, ICLASS_CMD_READ_OR_IDENTIFY, ICLASS_CMD_SELECT, ICLASS_CMD_PAGESEL,
    ICLASS_CMD_READCHECK_KD, ICLASS_CMD_READCHECK_KC, ICLASS_CMD_CHECK_KD, ICLASS_CMD_CHECK_KC,
    ICLASS_CMD_HALT, ICLASS_CMD_UPDATE, ICLASS_CMD_READ4]
  norm_num
  rw [if_pos hst, if_pos hmatch]

/-- The Select branch on a mismatching anticollision CSN: the chip falls back
to IDLE and nothing is sent. -/
lemma iclassStep_select_mismatch (s : IClassSess)
    (hst : s.chip_state = .activated ∨ s.chip_state = .selected)
    (l : List Nat) (hl : l.length = 8) (hmatch : l ≠ s.anticoll_data.take 8) :
    iclassStep s (0x81 :: l) = ({s with chip_state := .idle}, none) := by
  unfold iclassStep
  simp only [List.headD_cons, List.length_cons, hl, List.drop_succ_cons, List.drop_zero,
    ICLASS_CMD_ACTALL, ICLASS_CMD_READ_OR_IDENTIFY, ICLASS_CMD_SELECT, ICLASS_CMD_PAGESEL,
    ICLASS_CMD_READCHECK_KD, ICLASS_CMD_READCHECK_KC, ICLASS_CMD_CHECK_KD, ICLASS_CMD_CHECK_KC,
    ICLASS_CMD_HALT, ICLASS_CMD_UPDATE, ICLASS_CMD_READ4]
  norm_num
  rw [if_pos hst, if_neg hmatch]

/-- The Check branch (iclass.c:1092-1116) in full-simulation mode: the MAC is
computed from the currently selected cipher state, the reader nonce, and the
currently selected diversified key; the session state is untouched. -/
lemma iclassStep_check (s : IClassSess) (hst : s.chip_state = .selected)
    (hmode : s.mode = ICLASS_SIM_MODE_FULL) (r : List Nat) (hr : r.length = 8) :
    iclassStep s (0x05 :: r) = (s, some (.mac (cipherSel s) (r.take 4) (keyOfSel s))) := by
  unfold iclassStep
  simp only [List.headD_cons, List.length_cons, hr, List.drop_succ_cons, List.drop_zero,
    ICLASS_CMD_ACTALL, ICLASS_CMD_READ_OR_IDENTIFY, ICLASS_CMD_SELECT, ICLASS_CMD_PAGESEL,
    ICLASS_CMD_READCHECK_KD, ICLASS_CMD_READCHECK_KC, ICLASS_CMD_CHECK_KD, ICLASS_CMD_CHECK_KC,
    ICLASS_CMD_HALT, ICLASS_CMD_UPDATE, ICLASS_CMD_READ4]
  norm_num
  rw [if_pos hst, if_pos hmode]

/-- The Update branch for a 12-byte frame in state SELECTED reduces to
`iclassUpdate` on the embedded 8 data bytes. -/
lemma iclassStep_update (s : IClassSess) (hst : s.chip_state = .selected)
    (b : Nat) (d8 : List Nat) (x y : Nat) (hd : d8.length = 8) :
    iclassStep s (0x87 :: b :: (d8 ++ [x, y])) = iclassUpdate s b d8 := by
  unfold iclassStep
  have hlen : (0x87 :: b :: (d8 ++ [x, y])).length = 12 := by simp [hd]
  have htake : (d8 ++ [x, y]).take 8 = d8 := by
    rw [← hd]; exact List.take_left _ _
  simp only [List.headD_cons, hlen, List.drop_succ_cons, List.drop_zero,
    List.getD_cons_succ, List.getD_cons_zero, htake,
    ICLASS_CMD_ACTALL, ICLASS_CMD_READ_OR_IDENTIFY, ICLASS_CMD_SELECT, ICLASS_CMD_PAGESEL,
    ICLASS_CMD_READCHECK_KD, ICLASS_CMD_READCHECK_KC, ICLASS_CMD_CHECK_KD, ICLASS_CMD_CHECK_KC,
    ICLASS_CMD_HALT, ICLASS_CMD_UPDATE, ICLASS_CMD_READ4]
  norm_num
  simp [hst]

/-- The PageSel branch (iclass.c:1192-1212) in full-simulation mode with more
than one page: the page pointers move to page `p` unconditionally -- the page
byte is never compared with `max_page` -- and the `cipher_state` pointer is
re-aimed at the KD cell of page `p` without writing to it. -/
lemma iclassStep_pagesel (s : IClassSess) (hst : s.chip_state = .selected)
    (hmode : s.mode = ICLASS_SIM_MODE_FULL) (hmp : 0 < s.max_page) (p x y : Nat) :
    iclassStep s [0x84, p, x, y] =
      ({s with current_page := p,
               diversified_key_d := emRead s.em (p * s.page_size + 8 * 3) 8,
               diversified_key_c := emRead s.em (p * s.page_size + 8 * 4) 8,
               cipher_state := (.kd, p),
               personalization_mode :=
                 (emRead s.em (p * s.page_size + 8 * 1) 8).getD 7 0 &&& 0x80 ≠ 0},
       some (.tag (appendCrc (emRead s.em (p * s.page_size + 8 * 1) 8)))) := by
  unfold iclassStep
  simp only [List.headD_cons, List.length_cons, List.length_nil,
    List.getD_cons_succ, List.getD_cons_zero, hmode,
    ICLASS_CMD_ACTALL, ICLASS_CMD_READ_OR_IDENTIFY, ICLASS_CMD_SELECT, ICLASS_CMD_PAGESEL,
    ICLASS_CMD_READCHECK_KD, ICLASS_CMD_READCHECK_KC, ICLASS_CMD_CHECK_KD, ICLASS_CMD_CHECK_KC,
    ICLASS_CMD_HALT, ICLASS_CMD_UPDATE, ICLASS_CMD_READ4, ICLASS_SIM_MODE_FULL]
  norm_num
  simp [hst, hmp]

/-- The `cipher_state` pointer into the KD array dereferences to that array. -/
lemma cipherSel_kd (s : IClassSess) (p : Nat) (h : s.cipher_state = (.kd, p)) :
    cipherSel s = s.cipher_state_KD p := by
  unfold cipherSel
  rw [h]

/-- The `diversified_key` pointer at KD dereferences to the debit key. -/
lemma keyOfSel_kd (s : IClassSess) (h : s.diversified_key = .kd) :
    keyOfSel s = s.diversified_key_d := by
  unfold keyOfSel
  rw [h]

/-! ## Claim C5: the ActivateAll / Identify / Select state machine -/

/-- C5: in every simulation mode and for every emulator memory, a fresh
session starts IDLE; ActivateAll moves it to ACTIVATED with a SOF-only reply;
Identify replies with the anticollision CSN (the rotated real CSN) plus CRC;
Select with the 8-byte anticollision CSN moves it to SELECTED and replies with
the real 8-byte CSN followed by a valid CRC; and Select with any other 8 bytes
puts the chip to IDLE with no reply. -/
theorem c5_select_state_machine (mode : Nat) (hasBuf : Bool) (em : Nat → Nat) :
    (initIClass mode hasBuf em).chip_state = .idle ∧
    iclassStep (initIClass mode hasBuf em) [0x0A] =
      ({initIClass mode hasBuf em with chip_state := .activated}, some .sof) ∧
    iclassStep ({initIClass mode hasBuf em with chip_state := .activated}) [0x0C] =
      ({initIClass mode hasBuf em with chip_state := .activated},
        some (.tag (appendCrc (rotateCSN (emRead em 0 8))))) ∧
    iclassStep ({initIClass mode hasBuf em with chip_state := .activated})
        (0x81 :: rotateCSN (emRead em 0 8)) =
      ({initIClass mode hasBuf em with chip_state := .selected},
        some (.tag (appendCrc (emRead em 0 8)))) ∧
    iclassCrcOk (appendCrc (emRead em 0 8)) ∧
    (∀ other : List Nat, other.length = 8 → other ≠ rotateCSN (emRead em 0 8) →
      iclassStep ({initIClass mode hasBuf em with chip_state := .activated})
          (0x81 :: other) =
        ({initIClass mode hasBuf em with chip_state := .idle}, none)) := by
  have hanti : ({initIClass mode hasBuf em with
      chip_state := ChipState.activated}).anticoll_data.take 8
      = rotateCSN (emRead em 0 8) := by
    show (appendCrc (rotateCSN (emRead em 0 8))).take 8 = rotateCSN (emRead em 0 8)
    conv_lhs => rw [show (8 : Nat) = (rotateCSN (emRead em 0 8)).length from
      (length_rotateCSN _).symm]
    exact appendCrc_take _
  refine ⟨rfl, rfl, rfl, ?_, iclassCrcOk_appendCrc _, ?_⟩
  · rw [iclassStep_select_match _ (Or.inl rfl) _ (length_rotateCSN _) hanti.symm]
    rfl
  · intro other hlen hne
    rw [iclassStep_select_mismatch _ (Or.inl rfl) _ hlen (by rw [hanti]; exact hne)]

/-! ## Claim C2: the current page versus `max_page` after PageSel -/

/-- C2: the claim fails on the code.  On an 8-page card (`max_page = 7`), a
PageSel for page 8 in a full-simulation session is answered and leaves
`current_page = 8`, strictly beyond `max_page`: the PageSel branch copies the
reader-supplied page byte without any bounds check. -/
theorem c2_pagesel_escapes_page_range :
    (iclassRun (initIClass ICLASS_SIM_MODE_FULL false emFull) c2frames).1.max_page = 7 ∧
    (iclassRun (initIClass ICLASS_SIM_MODE_FULL false emFull) c2frames).1.current_page = 8 ∧
    (iclassRun (initIClass ICLASS_SIM_MODE_FULL false emFull) c2frames).1.max_page <
      (iclassRun (initIClass ICLASS_SIM_MODE_FULL false emFull) c2frames).1.current_page ∧
    (iclassRun (initIClass ICLASS_SIM_MODE_FULL false emFull) c2frames).2.getD 2 none ≠ none :=
  ⟨rfl, rfl, by decide, by decide⟩

/-! ## Claim C6: the default-CSN end-to-end scenario -/

/-- C6 counterexample: in the plain CSN simulation mode the claimed scenario
breaks at its last step -- the block-1 read request `0c 01 fa 22` is not
answered at all (the read-block branch only answers in the FULL and
EXIT_AFTER_MAC modes), so no configuration block is returned. -/
theorem c6_read_block_unanswered :
    (iclassRun (initIClass ICLASS_SIM_MODE_CSN false emCSN) c6frames).2 =
      [some .sof,
       some (.tag (appendCrc (rotateCSN defaultCSN))),
       some (.tag (appendCrc defaultCSN)),
       none] := by
  rfl

/-- C6 (amended): emulating the default CSN `03 1f ec 8a f7 ff 12 e0`, the
command sequence `0a`; `0c`; `81`+rotated CSN; `0c 01 fa 22` yields the
SOF-only reply, the anticollision (rotated) CSN plus CRC, the real CSN plus
CRC -- in every simulation mode -- and the configuration block plus CRC only
in the EXIT_AFTER_MAC (or full) simulation mode; plain CSN simulation leaves
the read-block request unanswered. -/
theorem c6_default_csn_scenario :
    emRead emCSN 0 8 = defaultCSN ∧
    (iclassRun (initIClass ICLASS_SIM_MODE_EXIT_AFTER_MAC true emCSN) c6frames).2 =
      [some .sof,
       some (.tag (appendCrc (rotateCSN defaultCSN))),
       some (.tag (appendCrc defaultCSN)),
       some (.tag (appendCrc [0x12, 0xFF, 0xFF, 0xFF, 0x7F, 0x1F, 0xFF, 0x3C]))] ∧
    (initIClass ICLASS_SIM_MODE_EXIT_AFTER_MAC true emCSN).conf_block =
      appendCrc [0x12, 0xFF, 0xFF, 0xFF, 0x7F, 0x1F, 0xFF, 0x3C] := by
  refine ⟨rfl, ?_, rfl⟩
  rfl

/-! ## Claim C7: cipher-state derivation points and Check -/

/-- C7 counterexample: a page switch does not derive a cipher state.  After a
PageSel for page 7 (the last page of an 8-page card, `max_page = 7`), the
`cipher_state` pointer aims at the KD cell of page 7, which the session
prologue never precomputed (its loop stops at `i < max_page`) and which the
page switch did not write either: the selected cipher state is an
uninitialized stack cell, not a state derived from (e-purse, key). -/
theorem c7_pagesel_underived :
    (iclassRun (initIClass ICLASS_SIM_MODE_FULL false emFull) c7frames).1.cipher_state =
      (.kd, 7) ∧
    cipherSel (iclassRun (initIClass ICLASS_SIM_MODE_FULL false emFull) c7frames).1 =
      .uninit ∧
    (iclassRun (initIClass ICLASS_SIM_MODE_FULL false emFull) c7frames).1.max_page = 7 ∧
    (iclassRun (initIClass ICLASS_SIM_MODE_FULL false emFull) c7frames).2.getD 2 none ≠ none :=
  ⟨rfl, rfl, rfl, by decide⟩

/-- C7 (amended): (a) Check computes its MAC from the currently selected
cipher state and key without rederiving or mutating anything; (b) an Update
of block 2 replaces the e-purse and rederives exactly the current page's KD
and KC cipher states from the new e-purse and the stored keys; (c) a page
switch moves the `cipher_state` pointer without writing any cipher state;
(d) after an e-purse update the Check MAC is computed for the new e-purse's
cipher state, and differs from the MAC for the old e-purse whenever the new
e-purse differs -- so a page switch selects a previously derived (possibly
stale or never-initialized) cell, and only session start and Update derive. -/
theorem c7_check_uses_cached_state :
    (∀ (s : IClassSess) (r : List Nat),
      s.chip_state = .selected → s.mode = ICLASS_SIM_MODE_FULL → r.length = 8 →
      iclassStep s (0x05 :: r) = (s, some (.mac (cipherSel s) (r.take 4) (keyOfSel s)))) ∧
    (∀ (s : IClassSess) (d8 : List Nat) (x y : Nat),
      s.chip_state = .selected → d8.length = 8 →
      (iclassStep s (0x87 :: 2 :: (d8 ++ [x, y]))).1.card_challenge_data = d8 ∧
      (∀ i, (iclassStep s (0x87 :: 2 :: (d8 ++ [x, y]))).1.cipher_state_KD i =
        if i = s.current_page then .derived d8 s.diversified_key_d else s.cipher_state_KD i) ∧
      (∀ i, (iclassStep s (0x87 :: 2 :: (d8 ++ [x, y]))).1.cipher_state_KC i =
        if i = s.current_page then .derived d8 s.diversified_key_c else s.cipher_state_KC i) ∧
      (iclassStep s (0x87 :: 2 :: (d8 ++ [x, y]))).1.cipher_state = s.cipher_state ∧
      (iclassStep s (0x87 :: 2 :: (d8 ++ [x, y]))).1.chip_state = s.chip_state ∧
      (iclassStep s (0x87 :: 2 :: (d8 ++ [x, y]))).2 = some (.tag (appendCrc d8))) ∧
    (∀ (s : IClassSess) (p x y : Nat),
      s.chip_state = .selected → s.mode = ICLASS_SIM_MODE_FULL → 0 < s.max_page →
      (iclassStep s [0x84, p, x, y]).1.cipher_state_KD = s.cipher_state_KD ∧
      (iclassStep s [0x84, p, x, y]).1.cipher_state_KC = s.cipher_state_KC ∧
      (iclassStep s [0x84, p, x, y]).1.cipher_state = (.kd, p) ∧
      (iclassStep s [0x84, p, x, y]).1.current_page = p ∧
      (iclassStep s [0x84, p, x, y]).1.card_challenge_data = s.card_challenge_data) ∧
    (∀ (s : IClassSess) (d8 r : List Nat) (x y : Nat),
      s.chip_state = .selected → s.mode = ICLASS_SIM_MODE_FULL →
      s.cipher_state = (.kd, s.current_page) → s.diversified_key = .kd →
      s.cipher_state_KD s.current_page = .derived s.card_challenge_data s.diversified_key_d →
      d8.length = 8 → r.length = 8 → d8 ≠ s.card_challenge_data →
      iclassStep (iclassStep s (0x87 :: 2 :: (d8 ++ [x, y]))).1 (0x05 :: r) =
        ((iclassStep s (0x87 :: 2 :: (d8 ++ [x, y]))).1,
         some (.mac (.derived d8 s.diversified_key_d) (r.take 4) s.diversified_key_d)) ∧
      (iclassStep s (0x05 :: r)).2 =
        some (.mac (.derived s.card_challenge_data s.diversified_key_d) (r.take 4)
          s.diversified_key_d) ∧
      some (IClassResp.mac (.derived d8 s.diversified_key_d) (r.take 4) s.diversified_key_d) ≠
        some (IClassResp.mac (.derived s.card_challenge_data s.diversified_key_d) (r.take 4)
          s.diversified_key_d)) := by
  refine ⟨fun s r h1 h2 h3 => iclassStep_check s h1 h2 r h3, ?_, ?_, ?_⟩
  · intro s d8 x y hst hd
    rw [iclassStep_update s hst 2 d8 x y hd]
    unfold iclassUpdate
    norm_num
  · intro s p x y hst hmode hmp
    rw [iclassStep_pagesel s hst hmode hmp p x y]
    exact ⟨rfl, rfl, rfl, rfl, rfl⟩
  · intro s d8 r x y hst hmode hsel hkey hkd hd hr hne
    have hupd := iclassStep_update s hst 2 d8 x y hd
    rw [hupd]
    have h1 : (iclassUpdate s 2 d8).1.chip_state = .selected := by
      unfold iclassUpdate; norm_num; exact hst
    have h2 : (iclassUpdate s 2 d8).1.mode = ICLASS_SIM_MODE_FULL := by
      unfold iclassUpdate; norm_num; exact hmode
    have h3 : (iclassUpdate s 2 d8).1.cipher_state = (.kd, s.current_page) := by
      unfold iclassUpdate; norm_num; exact hsel
    have h4 : (iclassUpdate s 2 d8).1.diversified_key = .kd := by
      unfold iclassUpdate; norm_num; exact hkey
    have h5 : (iclassUpdate s 2 d8).1.cipher_state_KD s.current_page =
        .derived d8 s.diversified_key_d := by
      unfold iclassUpdate; norm_num
    have h6 : (iclassUpdate s 2 d8).1.diversified_key_d = s.diversified_key_d := by
      unfold iclassUpdate; norm_num
    refine ⟨?_, ?_, ?_⟩
    · rw [iclassStep_check _ h1 h2 r hr, cipherSel_kd _ _ h3, keyOfSel_kd _ h4, h5, h6]
    · rw [iclassStep_check s hst hmode r hr, cipherSel_kd s _ hsel, keyOfSel_kd s hkey, hkd]
    · intro hEq
      apply hne
      have h7 := Option.some.inj hEq
      have h8 := (IClassResp.mac.injEq _ _ _ _ _ _).mp h7
      have h9 := (CipherSt.derived.injEq _ _ _ _).mp h8.1
      exact h9.1

/-- C3 counterexample: the iClass dispatcher acts on frames whose CRC does
not validate.  In a selected EXIT_AFTER_MAC session, the block-1 read frame
`0c 01 00 00`, whose trailer is not the CRC of its payload, is answered with
the configuration block exactly as the well-formed `0c 01 fa 22` is, and the
session state is untouched in both cases -- nothing is dropped. -/
theorem c3_bad_crc_still_answered :
    c3sess.chip_state = .selected ∧
    ¬ iclassCmdCrcOk [0x0C, 0x01, 0x00, 0x00] ∧
    iclassCmdCrcOk [0x0C, 0x01, 0xfa, 0x22] ∧
    iclassStep c3sess [0x0C, 0x01, 0x00, 0x00] = (c3sess, some (.tag c3sess.conf_block)) ∧
    iclassStep c3sess [0x0C, 0x01, 0xfa, 0x22] = (c3sess, some (.tag c3sess.conf_block)) :=
  ⟨rfl, by decide, by decide, rfl, rfl⟩

/-- C3 (amended): the CRC gate exists only in the ISO15693 simulator.
`SimTagIso15693` drops every frame of at most 3 bytes and every frame whose
trailer fails the ISO15693 CRC, leaving its state unchanged and sending
nothing; the iClass dispatcher `doIClassSimulation` never checks a CRC -- its
handling of a read-block frame is identical for every choice of the two
trailer bytes. -/
theorem c3_crc_gate :
    (∀ (s : Sim15) (cmd : List Nat), cmd.length ≤ 3 → sim15Step s cmd = (s, none)) ∧
    (∀ (s : Sim15) (cmd : List Nat), ¬ iso15CrcOk cmd → sim15Step s cmd = (s, none)) ∧
    (∀ (s : IClassSess) (b x y x2 y2 : Nat),
      iclassStep s [0x0C, b, x, y] = iclassStep s [0x0C, b, x2, y2]) := by
  refine ⟨?_, ?_, ?_⟩
  · intro s cmd h
    unfold sim15Step
    rw [if_pos h]
  · intro s cmd h
    unfold sim15Step
    split_ifs with h1 h2
    · rfl
    · rfl
    · exact absurd ⟨not_not.mp (not_or.mp h2).1, not_not.mp (not_or.mp h2).2⟩ h
  · intro s b x y x2 y2
    rfl

/-! ## Claim C4: the encode/decode round trip, both codings.

The run is verified period by period: the SOF preludes are concrete
computations, each 8-sample data period reduces to one `rx4Tail` /
`rx256Tail` call, and the per-symbol, per-byte and per-frame lemmas
compose them. -/

lemma code4_eq (cmd : List Nat) :
    codeIso15693AsReader cmd = 0x84 :: (cmd.flatMap symsOf ++ [0x20]) := rfl

lemma toSamples_append (a b : List Bool) :
    toSamples (a ++ b) = toSamples a ++ toSamples b := by
  simp [toSamples]

lemma symsOf_eq (c : Nat) :
    symsOf c = readerSymbol (c &&& 3) ++ (readerSymbol (c >>> 2 &&& 3) ++
      (readerSymbol (c >>> 4 &&& 3) ++ readerSymbol (c >>> 6 &&& 3))) := by
  show (List.range 4).flatMap _ = _
  have h4 : List.range 4 = [0, 1, 2, 3] := rfl
  rw [h4]
  simp [List.flatMap_cons]

lemma rx4Tail_blank (d : DecodeReader) (hbc : d.bitCount ≠ 15) :
    rx4Tail 4 4 d = {d with bitCount := (d.bitCount + 1) % 256} := by
  have h1 : ¬ ((3:Nat) ≤ 4 ∧ (4:Nat) ≤ 1) := by norm_num
  unfold rx4Tail
  rw [if_neg h1, if_neg hbc]

lemma rx4Tail_pulse (d : DecodeReader) (hbc : d.bitCount ≠ 15) :
    rx4Tail 4 0 d = {d with shiftReg := ((d.shiftReg >>> 2) ||| (d.bitCount <<< 6)) % 256,
                            bitCount := (d.bitCount + 1) % 256} := by
  have h1 : ((3:Nat) ≤ 4 ∧ (0:Nat) ≤ 1) := by norm_num
  unfold rx4Tail
  rw [if_pos h1]
  rw [if_neg hbc]

lemma rx4_blank_period (d : DecodeReader) (hst : d.state = .rxOneOutOf4)
    (hpos : d.posCount = 0) (rest : List Bool) :
    readerRun d (true :: true :: true :: true :: true :: true :: true :: true :: rest) =
    readerRun (rx4Tail 4 4 {d with sum1 := 4, sum2 := 4}) rest := by
  obtain ⟨st, cod, sh, bc, k, M, pc, s1, s2, ws⟩ := d
  simp only at hst hpos
  subst hst hpos
  simp only [readerRun, readerStep]
  norm_num

lemma rx4_pulse_period (d : DecodeReader) (hst : d.state = .rxOneOutOf4)
    (hpos : d.posCount = 0) (rest : List Bool) :
    readerRun d (true :: true :: true :: true :: false :: false :: false :: false :: rest) =
    readerRun (rx4Tail 4 0 {d with sum1 := 4, sum2 := 0}) rest := by
  obtain ⟨st, cod, sh, bc, k, M, pc, s1, s2, ws⟩ := d
  simp only at hst hpos
  subst hst hpos
  simp only [readerRun, readerStep]
  norm_num

lemma rx4_eof_period (d : DecodeReader) (hst : d.state = .rxOneOutOf4)
    (hpos : d.posCount = 0) (hk : d.byteCount ≠ 0) (rest : List Bool) :
    readerRun d (false :: false :: false :: false :: true :: true :: true :: true :: rest) =
    ({d with sum1 := 0, sum2 := 4, state := .unsyncd}, true) := by
  obtain ⟨st, cod, sh, bc, k, M, pc, s1, s2, ws⟩ := d
  simp only at hst hpos hk
  subst hst hpos
  simp only [readerRun, readerStep]
  norm_num [hk]

lemma rx4_blank8 (cod : RCoding) (sh bc k M s1x s2x : Nat) (ws : List (Nat × Nat))
    (rest : List Bool) (hbc : bc ≠ 15) :
    readerRun ⟨.rxOneOutOf4, cod, sh, bc, k, M, 0, s1x, s2x, ws⟩
      (true :: true :: true :: true :: true :: true :: true :: true :: rest) =
    readerRun ⟨.rxOneOutOf4, cod, sh, (bc + 1) % 256, k, M, 0, 4, 4, ws⟩ rest := by
  rw [rx4_blank_period ⟨.rxOneOutOf4, cod, sh, bc, k, M, 0, s1x, s2x, ws⟩ rfl rfl rest,
      rx4Tail_blank _ hbc]

lemma rx4_pulse8 (cod : RCoding) (sh bc k M s1x s2x : Nat) (ws : List (Nat × Nat))
    (rest : List Bool) (hbc : bc ≠ 15) :
    readerRun ⟨.rxOneOutOf4, cod, sh, bc, k, M, 0, s1x, s2x, ws⟩
      (true :: true :: true :: true :: false :: false :: false :: false :: rest) =
    readerRun ⟨.rxOneOutOf4, cod, ((sh >>> 2) ||| (bc <<< 6)) % 256, (bc + 1) % 256,
      k, M, 0, 4, 0, ws⟩ rest := by
  rw [rx4_pulse_period ⟨.rxOneOutOf4, cod, sh, bc, k, M, 0, s1x, s2x, ws⟩ rfl rfl rest,
      rx4Tail_pulse _ hbc]



lemma rx4_blank8s (cod : RCoding) (sh k M s1x s2x : Nat) (ws : List (Nat × Nat))
    (rest : List Bool) :
    readerRun ⟨.rxOneOutOf4, cod, sh, 15, k, M, 0, s1x, s2x, ws⟩
      (true :: true :: true :: true :: true :: true :: true :: true :: rest) =
    readerRun ⟨if k + 1 > M then .unsyncd else .rxOneOutOf4, cod, 0, 0, k + 1, M, 0,
      4, 4, ws ++ [(k, sh)]⟩ rest := by
  rw [rx4_blank_period ⟨.rxOneOutOf4, cod, sh, 15, k, M, 0, s1x, s2x, ws⟩ rfl rfl rest]
  have ht : rx4Tail 4 4 ⟨.rxOneOutOf4, cod, sh, 15, k, M, 0, 4, 4, ws⟩ =
      ⟨if k + 1 > M then .unsyncd else .rxOneOutOf4, cod, 0, 0, k + 1, M, 0,
        4, 4, ws ++ [(k, sh)]⟩ := by
    unfold rx4Tail
    norm_num
    split_ifs <;> first | rfl | omega
  rw [ht]

lemma rx4_pulse8s (cod : RCoding) (sh k M s1x s2x : Nat) (ws : List (Nat × Nat))
    (rest : List Bool) :
    readerRun ⟨.rxOneOutOf4, cod, sh, 15, k, M, 0, s1x, s2x, ws⟩
      (true :: true :: true :: true :: false :: false :: false :: false :: rest) =
    readerRun ⟨if k + 1 > M then .unsyncd else .rxOneOutOf4, cod, 0, 0, k + 1, M, 0,
      4, 0, ws ++ [(k, ((sh >>> 2) ||| (15 <<< 6)) % 256)]⟩ rest := by
  rw [rx4_pulse_period ⟨.rxOneOutOf4, cod, sh, 15, k, M, 0, s1x, s2x, ws⟩ rfl rfl rest]
  have ht : rx4Tail 4 0 ⟨.rxOneOutOf4, cod, sh, 15, k, M, 0, 4, 0, ws⟩ =
      ⟨if k + 1 > M then .unsyncd else .rxOneOutOf4, cod, 0, 0, k + 1, M, 0,
        4, 0, ws ++ [(k, ((sh >>> 2) ||| (15 <<< 6)) % 256)]⟩ := by
    unfold rx4Tail
    norm_num
    split_ifs <;> first | rfl | omega
  rw [ht]

lemma rx4_eof8 (cod : RCoding) (sh bc k M s1x s2x : Nat) (ws : List (Nat × Nat))
    (rest : List Bool) (hk : k ≠ 0) :
    readerRun ⟨.rxOneOutOf4, cod, sh, bc, k, M, 0, s1x, s2x, ws⟩
      (false :: false :: false :: false :: true :: true :: true :: true :: rest) =
    (⟨.unsyncd, cod, sh, bc, k, M, 0, 0, 4, ws⟩, true) := by
  rw [rx4_eof_period ⟨.rxOneOutOf4, cod, sh, bc, k, M, 0, s1x, s2x, ws⟩ rfl rfl hk rest]

lemma rx4_seg0 (r : List Bool) :
    toSamples ((readerSymbol 0).flatMap byteBits) ++ r =
    true :: true :: true :: true :: false :: false :: false :: false :: true :: true :: true :: true :: true :: true :: true :: true :: true :: true :: true :: true :: true :: true :: true :: true :: true :: true :: true :: true :: true :: true :: true :: true :: r := rfl

lemma rx4_seg1 (r : List Bool) :
    toSamples ((readerSymbol 1).flatMap byteBits) ++ r =
    true :: true :: true :: true :: true :: true :: true :: true :: true :: true :: true :: true :: false :: false :: false :: false :: true :: true :: true :: true :: true :: true :: true :: true :: true :: true :: true :: true :: true :: true :: true :: true :: r := rfl

lemma rx4_seg2 (r : List Bool) :
    toSamples ((readerSymbol 2).flatMap byteBits) ++ r =
    true :: true :: true :: true :: true :: true :: true :: true :: true :: true :: true :: true :: true :: true :: true :: true :: true :: true :: true :: true :: false :: false :: false :: false :: true :: true :: true :: true :: true :: true :: true :: true :: r := rfl

lemma rx4_seg3 (r : List Bool) :
    toSamples ((readerSymbol 3).flatMap byteBits) ++ r =
    true :: true :: true :: true :: true :: true :: true :: true :: true :: true :: true :: true :: true :: true :: true :: true :: true :: true :: true :: true :: true :: true :: true :: true :: true :: true :: true :: true :: false :: false :: false :: false :: r := rfl

lemma rx4_sym (b : Nat) (hb : b = 0 ∨ b = 4 ∨ b = 8) (v : Nat) (hv : v < 4)
    (sh k M s1x s2x : Nat) (ws : List (Nat × Nat)) (rest : List Bool) :
    readerRun ⟨.rxOneOutOf4, .oneOutOf4, sh, b, k, M, 0, s1x, s2x, ws⟩
      (toSamples ((readerSymbol v).flatMap byteBits) ++ rest) =
    readerRun ⟨.rxOneOutOf4, .oneOutOf4, ((sh >>> 2) ||| ((b + v) <<< 6)) % 256, b + 4,
      k, M, 0, 4, if v = 3 then 0 else 4, ws⟩ rest := by
  rcases hb with hb | hb | hb <;> subst hb <;> interval_cases v
  all_goals first
    | (rw [rx4_seg0]; simp [rx4_blank8, rx4_pulse8])
    | (rw [rx4_seg1]; simp [rx4_blank8, rx4_pulse8])
    | (rw [rx4_seg2]; simp [rx4_blank8, rx4_pulse8])
    | (rw [rx4_seg3]; simp [rx4_blank8, rx4_pulse8])

lemma rx4_sym3 (b : Nat) (hb : b = 12) (v : Nat) (hv : v < 4)
    (sh k M s1x s2x : Nat) (ws : List (Nat × Nat)) (rest : List Bool)
    (hkM : ¬ (k + 1 > M)) :
    readerRun ⟨.rxOneOutOf4, .oneOutOf4, sh, b, k, M, 0, s1x, s2x, ws⟩
      (toSamples ((readerSymbol v).flatMap byteBits) ++ rest) =
    readerRun ⟨.rxOneOutOf4, .oneOutOf4, 0, 0, k + 1, M, 0, 4,
      (if v = 3 then 0 else 4),
      ws ++ [(k, ((sh >>> 2) ||| ((b + v) <<< 6)) % 256)]⟩ rest := by
  subst hb
  interval_cases v
  all_goals first
    | (rw [rx4_seg0]; simp [rx4_blank8, rx4_pulse8, rx4_blank8s, rx4_pulse8s, if_neg hkM])
    | (rw [rx4_seg1]; simp [rx4_blank8, rx4_pulse8, rx4_blank8s, rx4_pulse8s, if_neg hkM])
    | (rw [rx4_seg2]; simp [rx4_blank8, rx4_pulse8, rx4_blank8s, rx4_pulse8s, if_neg hkM])
    | (rw [rx4_seg3]; simp [rx4_blank8, rx4_pulse8, rx4_blank8s, rx4_pulse8s, if_neg hkM])

set_option maxRecDepth 4000 in
lemma rx4_recompose : ∀ c : Nat, c < 256 →
    (((((((0 >>> 2 ||| (0 + (c &&& 3)) <<< 6) % 256) >>> 2 |||
        (0 + 4 + (c >>> 2 &&& 3)) <<< 6) % 256) >>> 2 |||
        (0 + 4 + 4 + (c >>> 4 &&& 3)) <<< 6) % 256) >>> 2 |||
        (0 + 4 + 4 + 4 + (c >>> 6 &&& 3)) <<< 6) % 256 = c := by decide

lemma rx4_byte (c k M : Nat) (hc : c < 256) (hkM : ¬ (k + 1 > M))
    (s1x s2x : Nat) (ws : List (Nat × Nat)) (rest : List Bool) :
    readerRun ⟨.rxOneOutOf4, .oneOutOf4, 0, 0, k, M, 0, s1x, s2x, ws⟩
      (toSamples ((symsOf c).flatMap byteBits) ++ rest) =
    readerRun ⟨.rxOneOutOf4, .oneOutOf4, 0, 0, k + 1, M, 0, 4,
      (if c >>> 6 &&& 3 = 3 then 0 else 4), ws ++ [(k, c)]⟩ rest := by
  have hv0 : c &&& 3 < 4 := Nat.lt_succ_of_le Nat.and_le_right
  have hv1 : c >>> 2 &&& 3 < 4 := Nat.lt_succ_of_le Nat.and_le_right
  have hv2 : c >>> 4 &&& 3 < 4 := Nat.lt_succ_of_le Nat.and_le_right
  have hv3 : c >>> 6 &&& 3 < 4 := Nat.lt_succ_of_le Nat.and_le_right
  rw [symsOf_eq]
  rw [List.flatMap_append, List.flatMap_append, List.flatMap_append,
      toSamples_append, toSamples_append, toSamples_append]
  simp only [List.append_assoc]
  rw [rx4_sym 0 (by norm_num) _ hv0]
  rw [rx4_sym (0 + 4) (by norm_num) _ hv1]
  rw [rx4_sym (0 + 4 + 4) (by norm_num) _ hv2]
  rw [rx4_sym3 (0 + 4 + 4 + 4) (by norm_num) _ hv3 _ _ _ _ _ _ _ hkM]
  rw [rx4_recompose c hc]

lemma toSamples_nil_aux : toSamples [] = [] := rfl

lemma eof4_seg : toSamples (byteBits 0x20) =
    true :: true :: true :: true :: true :: true :: true :: true ::
    false :: false :: false :: false :: true :: true :: true :: true ::
    [true, true, true, true, true, true, true, true,
     true, true, true, true, true, true, true, true] := rfl

lemma rx4_data : ∀ (bs : List Nat) (k M s1x s2x : Nat) (ws : List (Nat × Nat)),
    (∀ b ∈ bs, b < 256) → k + bs.length ≤ M → k + bs.length ≠ 0 →
    readerRun ⟨.rxOneOutOf4, .oneOutOf4, 0, 0, k, M, 0, s1x, s2x, ws⟩
      (toSamples ((bs.flatMap symsOf).flatMap byteBits) ++ toSamples (byteBits 0x20)) =
    (⟨.unsyncd, .oneOutOf4, 0, 1, k + bs.length, M, 0, 0, 4,
      ws ++ List.enumFrom k bs⟩, true) := by
  intro bs
  induction bs with
  | nil =>
      intro k M s1x s2x ws hb hkM hk0
      simp only [List.flatMap_nil, toSamples_nil_aux, List.nil_append, List.length_nil,
        Nat.add_zero] at *
      rw [eof4_seg]
      rw [rx4_blank8 _ _ _ _ _ _ _ _ _ (by norm_num)]
      rw [rx4_eof8 _ _ _ _ _ _ _ _ _ hk0]
      simp [List.enumFrom]
  | cons c bs2 ih =>
      intro k M s1x s2x ws hb hkM hk0
      rw [List.flatMap_cons, List.flatMap_append, toSamples_append, List.append_assoc]
      rw [rx4_byte c k M (hb c (by simp)) (by simp at hkM ⊢; omega) s1x s2x ws]
      rw [ih (k + 1) M _ _ _ (fun b hbm => hb b (by simp [hbm])) (by simp at hkM ⊢; omega)
        (by omega)]
      have hlen : k + 1 + bs2.length = k + (bs2.length + 1) := by omega
      simp [List.enumFrom, hlen, List.append_assoc]

lemma sof4_prelude (M : Nat) (rest : List Bool) :
    readerRun (decodeReaderInit M) (true :: (toSamples (byteBits 0x84) ++ rest)) =
    readerRun ⟨.awaitEndOfSof, .oneOutOf4, 0, 0, 0, M, 8, 0, 0, []⟩ rest := rfl

lemma aw4_to_rx (M : Nat) (xs : List Bool) (h : xs.headD false = true) :
    readerRun ⟨.awaitEndOfSof, .oneOutOf4, 0, 0, 0, M, 8, 0, 0, []⟩ xs =
    readerRun ⟨.rxOneOutOf4, .oneOutOf4, 0, 0, 0, M, 0, 0, 0, []⟩ xs := by
  cases xs with
  | nil => simp at h
  | cons b t =>
      simp at h
      subst h
      rfl

lemma sym_samples_head (c : Nat) (l : List Bool) :
    ((toSamples ((symsOf c).flatMap byteBits)) ++ l).headD false = true := by
  have h3 : c &&& 3 < 4 := Nat.lt_succ_of_le Nat.and_le_right
  rw [symsOf_eq, List.flatMap_append, toSamples_append, List.append_assoc]
  rcases e : c &&& 3 with _ | _ | _ | _ | n
  · rfl
  · rfl
  · rfl
  · rfl
  · rw [e] at h3; omega

lemma c4partA (bs : List Nat) (M : Nat) (hne : bs ≠ []) (hlen : bs.length ≤ M)
    (hb : ∀ b ∈ bs, b < 256) :
    c4runA bs M =
    (⟨.unsyncd, .oneOutOf4, 0, 1, bs.length, M, 0, 0, 4, List.enumFrom 0 bs⟩, true) := by
  obtain ⟨c, bs2, rfl⟩ := List.exists_cons_of_ne_nil hne
  unfold c4runA
  rw [code4_eq, List.flatMap_cons, toSamples_append, List.flatMap_append,
    toSamples_append]
  rw [show ([0x20] : List Nat).flatMap byteBits = byteBits 0x20 by simp]
  rw [sof4_prelude]
  rw [List.flatMap_cons, List.flatMap_append, toSamples_append, List.append_assoc]
  rw [aw4_to_rx M _ (sym_samples_head c _)]
  rw [← List.append_assoc, ← toSamples_append, ← List.flatMap_append, ← List.flatMap_cons]
  have h := rx4_data (c :: bs2) 0 M 0 0 [] hb (by simpa using hlen) (by simp)
  simp only [Nat.zero_add, List.nil_append] at h
  rw [h]

lemma code256_eq (cmd : List Nat) :
    codeIso15693AsReader256Bits cmd =
    byteBits 0x81 ++ (cmd.flatMap slotBits ++ byteBits 0x20) := by
  rw [← List.append_assoc]
  rfl

lemma rx256Tail_blank (d : DecodeReader) (hbc : d.bitCount ≠ 255) :
    rx256Tail 4 4 d = {d with bitCount := (d.bitCount + 1) % 256} := by
  have h1 : ¬ ((3:Nat) ≤ 4 ∧ (4:Nat) ≤ 1) := by norm_num
  unfold rx256Tail
  rw [if_neg h1, if_neg hbc]

lemma rx256Tail_pulse (d : DecodeReader) (hbc : d.bitCount ≠ 255) :
    rx256Tail 4 0 d = {d with shiftReg := d.bitCount, bitCount := (d.bitCount + 1) % 256} := by
  have h1 : ((3:Nat) ≤ 4 ∧ (0:Nat) ≤ 1) := by norm_num
  unfold rx256Tail
  rw [if_pos h1]
  rw [if_neg hbc]

lemma rx256_blank_period (d : DecodeReader) (hst : d.state = .rxOneOutOf256)
    (hpos : d.posCount = 0) (rest : List Bool) :
    readerRun d (true :: true :: true :: true :: true :: true :: true :: true :: rest) =
    readerRun (rx256Tail 4 4 {d with sum1 := 4, sum2 := 4}) rest := by
  obtain ⟨st, cod, sh, bc, k, M, pc, s1, s2, ws⟩ := d
  simp only at hst hpos
  subst hst hpos
  simp only [readerRun, readerStep]
  norm_num

lemma rx256_pulse_period (d : DecodeReader) (hst : d.state = .rxOneOutOf256)
    (hpos : d.posCount = 0) (rest : List Bool) :
    readerRun d (true :: true :: true :: true :: false :: false :: false :: false :: rest) =
    readerRun (rx256Tail 4 0 {d with sum1 := 4, sum2 := 0}) rest := by
  obtain ⟨st, cod, sh, bc, k, M, pc, s1, s2, ws⟩ := d
  simp only at hst hpos
  subst hst hpos
  simp only [readerRun, readerStep]
  norm_num

lemma rx256_eof_period (d : DecodeReader) (hst : d.state = .rxOneOutOf256)
    (hpos : d.posCount = 0) (hk : d.byteCount ≠ 0) (rest : List Bool) :
    readerRun d (false :: false :: false :: false :: true :: true :: true :: true :: rest) =
    ({d with sum1 := 0, sum2 := 4, state := .unsyncd}, true) := by
  obtain ⟨st, cod, sh, bc, k, M, pc, s1, s2, ws⟩ := d
  simp only at hst hpos hk
  subst hst hpos
  simp only [readerRun, readerStep]
  norm_num [hk]

lemma rx256_blank8 (cod : RCoding) (sh bc k M s1x s2x : Nat) (ws : List (Nat × Nat))
    (rest : List Bool) (hbc : bc ≠ 255) :
    readerRun ⟨.rxOneOutOf256, cod, sh, bc, k, M, 0, s1x, s2x, ws⟩
      (true :: true :: true :: true :: true :: true :: true :: true :: rest) =
    readerRun ⟨.rxOneOutOf256, cod, sh, (bc + 1) % 256, k, M, 0, 4, 4, ws⟩ rest := by
  rw [rx256_blank_period ⟨.rxOneOutOf256, cod, sh, bc, k, M, 0, s1x, s2x, ws⟩ rfl rfl rest,
      rx256Tail_blank _ hbc]

lemma rx256_pulse8 (cod : RCoding) (sh bc k M s1x s2x : Nat) (ws : List (Nat × Nat))
    (rest : List Bool) (hbc : bc ≠ 255) :
    readerRun ⟨.rxOneOutOf256, cod, sh, bc, k, M, 0, s1x, s2x, ws⟩
      (true :: true :: true :: true :: false :: false :: false :: false :: rest) =
    readerRun ⟨.rxOneOutOf256, cod, bc, (bc + 1) % 256, k, M, 0, 4, 0, ws⟩ rest := by
  rw [rx256_pulse_period ⟨.rxOneOutOf256, cod, sh, bc, k, M, 0, s1x, s2x, ws⟩ rfl rfl rest,
      rx256Tail_pulse _ hbc]

lemma rx256_blank8s (cod : RCoding) (sh k M s1x s2x : Nat) (ws : List (Nat × Nat))
    (rest : List Bool) :
    readerRun ⟨.rxOneOutOf256, cod, sh, 255, k, M, 0, s1x, s2x, ws⟩
      (true :: true :: true :: true :: true :: true :: true :: true :: rest) =
    readerRun ⟨if k + 1 > M then .unsyncd else .rxOneOutOf256, cod, sh, 0, k + 1, M, 0,
      4, 4, ws ++ [(k, sh)]⟩ rest := by
  rw [rx256_blank_period ⟨.rxOneOutOf256, cod, sh, 255, k, M, 0, s1x, s2x, ws⟩ rfl rfl rest]
  have ht : rx256Tail 4 4 ⟨.rxOneOutOf256, cod, sh, 255, k, M, 0, 4, 4, ws⟩ =
      ⟨if k + 1 > M then .unsyncd else .rxOneOutOf256, cod, sh, 0, k + 1, M, 0,
        4, 4, ws ++ [(k, sh)]⟩ := by
    unfold rx256Tail
    norm_num
    split_ifs <;> first | rfl | omega
  rw [ht]

lemma rx256_pulse8s (cod : RCoding) (sh k M s1x s2x : Nat) (ws : List (Nat × Nat))
    (rest : List Bool) :
    readerRun ⟨.rxOneOutOf256, cod, sh, 255, k, M, 0, s1x, s2x, ws⟩
      (true :: true :: true :: true :: false :: false :: false :: false :: rest) =
    readerRun ⟨if k + 1 > M then .unsyncd else .rxOneOutOf256, cod, 255, 0, k + 1, M, 0,
      4, 0, ws ++ [(k, 255)]⟩ rest := by
  rw [rx256_pulse_period ⟨.rxOneOutOf256, cod, sh, 255, k, M, 0, s1x, s2x, ws⟩ rfl rfl rest]
  have ht : rx256Tail 4 0 ⟨.rxOneOutOf256, cod, sh, 255, k, M, 0, 4, 0, ws⟩ =
      ⟨if k + 1 > M then .unsyncd else .rxOneOutOf256, cod, 255, 0, k + 1, M, 0,
        4, 0, ws ++ [(k, 255)]⟩ := by
    unfold rx256Tail
    norm_num
    split_ifs <;> first | rfl | omega
  rw [ht]

lemma rx256_eof8 (cod : RCoding) (sh bc k M s1x s2x : Nat) (ws : List (Nat × Nat))
    (rest : List Bool) (hk : k ≠ 0) :
    readerRun ⟨.rxOneOutOf256, cod, sh, bc, k, M, 0, s1x, s2x, ws⟩
      (false :: false :: false :: false :: true :: true :: true :: true :: rest) =
    (⟨.unsyncd, cod, sh, bc, k, M, 0, 0, 4, ws⟩, true) := by
  rw [rx256_eof_period ⟨.rxOneOutOf256, cod, sh, bc, k, M, 0, s1x, s2x, ws⟩ rfl rfl hk rest]

lemma flatMap_const_ff : ∀ n : Nat,
    (List.range n).flatMap (fun _ => ([false, false] : List Bool)) =
    List.replicate (2 * n) false := by
  intro n
  induction n with
  | zero => rfl
  | succ m ih =>
      rw [List.range_succ, List.flatMap_append, ih]
      rw [show 2 * (m + 1) = 2 * m + 2 by ring, List.replicate_add]
      rfl

lemma toSamples_replicate_false : ∀ n : Nat,
    toSamples (List.replicate n false) = List.replicate (4 * n) true := by
  intro n
  induction n with
  | zero => rfl
  | succ m ih =>
      rw [List.replicate_succ, show toSamples (false :: List.replicate m false) =
        [true, true, true, true] ++ toSamples (List.replicate m false) from rfl, ih]
      rw [show 4 * (m + 1) = 4 + 4 * m by ring, List.replicate_add]
      rfl

lemma slotBits_decomp (c : Nat) (hc : c < 256) :
    toSamples (slotBits c) =
    List.replicate (8 * c) true ++
      (true :: true :: true :: true :: false :: false :: false :: false ::
        List.replicate (8 * (255 - c)) true) := by
  have h1 : (256 : Nat) = (c + 1) + (255 - c) := by omega
  unfold slotBits
  rw [h1, List.range_add, List.range_succ]
  rw [List.flatMap_append, List.flatMap_append, List.flatMap_map]
  have hA : (List.range c).flatMap (fun j => if c = j then ([false, true] : List Bool)
      else [false, false]) = List.replicate (2 * c) false := by
    refine Eq.trans (List.flatMap_congr ?_) (flatMap_const_ff c)
    intro x hx
    rw [if_neg]
    have := List.mem_range.mp hx
    omega
  have hB : ([c] : List Nat).flatMap (fun j => if c = j then ([false, true] : List Bool)
      else [false, false]) = [false, true] := by
    simp
  have hC : (List.range (255 - c)).flatMap (fun a => if c = c + 1 + a then
      ([false, true] : List Bool) else [false, false]) =
      List.replicate (2 * (255 - c)) false := by
    refine Eq.trans (List.flatMap_congr ?_) (flatMap_const_ff _)
    intro x hx
    rw [if_neg]
    omega
  rw [hA, hB, hC]
  rw [toSamples_append, toSamples_append, toSamples_replicate_false,
    toSamples_replicate_false]
  rw [show 4 * (2 * c) = 8 * c by ring, show 4 * (2 * (255 - c)) = 8 * (255 - c) by ring,
    List.append_assoc]
  rfl

lemma replicate8_cons (r : List Bool) :
    List.replicate 8 true ++ r =
    true :: true :: true :: true :: true :: true :: true :: true :: r := rfl

lemma rx256_blanks : ∀ (m : Nat) (cod : RCoding) (sh bc k M s1x s2x : Nat)
    (ws : List (Nat × Nat)) (rest : List Bool), bc + m ≤ 255 →
    ∃ s1e s2e,
      readerRun ⟨.rxOneOutOf256, cod, sh, bc, k, M, 0, s1x, s2x, ws⟩
        (List.replicate (8 * m) true ++ rest) =
      readerRun ⟨.rxOneOutOf256, cod, sh, bc + m, k, M, 0, s1e, s2e, ws⟩ rest := by
  intro m
  induction m with
  | zero =>
      intro cod sh bc k M s1x s2x ws rest hm
      exact ⟨s1x, s2x, by simp⟩
  | succ n ih =>
      intro cod sh bc k M s1x s2x ws rest hm
      obtain ⟨s1e, s2e, he⟩ := ih cod sh (bc + 1) k M 4 4 ws rest (by omega)
      refine ⟨s1e, s2e, ?_⟩
      rw [show 8 * (n + 1) = 8 + 8 * n by ring, List.replicate_add, List.append_assoc,
        replicate8_cons]
      rw [rx256_blank8 _ _ _ _ _ _ _ _ _ (by omega)]
      rw [Nat.mod_eq_of_lt (by omega : bc + 1 < 256)]
      rw [he]
      rw [show bc + 1 + n = bc + (n + 1) by omega]

lemma rx256_byte (c k M : Nat) (hc : c < 256) (hkM : ¬ (k + 1 > M))
    (cod : RCoding) (sh s1x s2x : Nat) (ws : List (Nat × Nat)) (rest : List Bool) :
    ∃ s1e s2e,
      readerRun ⟨.rxOneOutOf256, cod, sh, 0, k, M, 0, s1x, s2x, ws⟩
        (toSamples (slotBits c) ++ rest) =
      readerRun ⟨.rxOneOutOf256, cod, c, 0, k + 1, M, 0, s1e, s2e, ws ++ [(k, c)]⟩ rest := by
  rw [slotBits_decomp c hc, List.append_assoc]
  by_cases h255 : c = 255
  · subst h255
    obtain ⟨s1e, s2e, he⟩ := rx256_blanks 255 cod sh 0 k M s1x s2x ws _ (by omega)
    refine ⟨4, 0, ?_⟩
    rw [he]
    rw [show (0 : Nat) + 255 = 255 from rfl]
    simp only [List.cons_append, show (8 * (255 - 255) : Nat) = 0 from rfl,
      List.replicate_zero, List.nil_append]
    rw [rx256_pulse8s]
    rw [if_neg hkM]
  · obtain ⟨s1e, s2e, he⟩ := rx256_blanks c cod sh 0 k M s1x s2x ws _ (by omega)
    refine ⟨4, 4, ?_⟩
    rw [he, Nat.zero_add]
    simp only [List.cons_append]
    rw [rx256_pulse8 _ _ _ _ _ _ _ _ _ h255]
    rw [Nat.mod_eq_of_lt (by omega : c + 1 < 256)]
    rw [show 8 * (255 - c) = 8 * (254 - c) + 8 by omega, List.replicate_add,
      List.append_assoc]
    obtain ⟨s1f, s2f, hf⟩ := rx256_blanks (254 - c) cod c (c + 1) (k) M 4 0 ws _ (by omega)
    rw [hf]
    rw [show c + 1 + (254 - c) = 255 by omega]
    rw [replicate8_cons]
    rw [rx256_blank8s]
    rw [if_neg hkM]

lemma rx256_data : ∀ (bs : List Nat) (k M sh s1x s2x : Nat) (ws : List (Nat × Nat)),
    (∀ b ∈ bs, b < 256) → k + bs.length ≤ M → k + bs.length ≠ 0 →
    ∃ shf,
      readerRun ⟨.rxOneOutOf256, .oneOutOf256, sh, 0, k, M, 0, s1x, s2x, ws⟩
        (toSamples (bs.flatMap slotBits) ++ toSamples (byteBits 0x20)) =
      (⟨.unsyncd, .oneOutOf256, shf, 1, k + bs.length, M, 0, 0, 4,
        ws ++ List.enumFrom k bs⟩, true) := by
  intro bs
  induction bs with
  | nil =>
      intro k M sh s1x s2x ws hb hkM hk0
      simp only [List.flatMap_nil, toSamples_nil_aux, List.nil_append, List.length_nil,
        Nat.add_zero] at *
      refine ⟨sh, ?_⟩
      rw [eof4_seg]
      rw [rx256_blank8 _ _ _ _ _ _ _ _ _ (by norm_num)]
      rw [rx256_eof8 _ _ _ _ _ _ _ _ _ hk0]
      simp [List.enumFrom]
  | cons c bs2 ih =>
      intro k M sh s1x s2x ws hb hkM hk0
      rw [List.flatMap_cons, toSamples_append, List.append_assoc]
      obtain ⟨s1e, s2e, he⟩ := rx256_byte c k M (hb c (by simp))
        (by simp at hkM ⊢; omega) .oneOutOf256 sh s1x s2x ws _
      rw [he]
      obtain ⟨shf, hI⟩ := ih (k + 1) M c s1e s2e (ws ++ [(k, c)])
        (fun b hbm => hb b (by simp [hbm])) (by simp at hkM ⊢; omega) (by omega)
      rw [hI]
      refine ⟨shf, ?_⟩
      have hlen : k + 1 + bs2.length = k + (bs2.length + 1) := by omega
      simp [List.enumFrom, hlen, List.append_assoc]

lemma sof256_prelude (M : Nat) (rest : List Bool) :
    readerRun (decodeReaderInit M) (true :: (toSamples (byteBits 0x81) ++ rest)) =
    readerRun ⟨.await2ndRisingEdge, .oneOutOf256, 0, 0, 0, M, 32, 0, 0, []⟩ rest := rfl

lemma aw256_to_rx (M : Nat) (xs : List Bool) (h : xs.headD false = true) :
    readerRun ⟨.await2ndRisingEdge, .oneOutOf256, 0, 0, 0, M, 32, 0, 0, []⟩ xs =
    readerRun ⟨.rxOneOutOf256, .oneOutOf256, 0, 0, 0, M, 0, 0, 0, []⟩ xs := by
  cases xs with
  | nil => simp at h
  | cons b t =>
      simp at h
      subst h
      rfl

lemma slot_samples_head (c : Nat) (hc : c < 256) (l : List Bool) :
    ((toSamples (slotBits c)) ++ l).headD false = true := by
  rw [slotBits_decomp c hc]
  rcases c with _ | n
  · rfl
  · rw [show 8 * (n + 1) = (8 * n + 7) + 1 by ring, List.replicate_succ]
    rfl

lemma c4partB (bs : List Nat) (M : Nat) (hne : bs ≠ []) (hlen : bs.length ≤ M)
    (hb : ∀ b ∈ bs, b < 256) :
    ∃ shf, c4runB bs M =
      (⟨.unsyncd, .oneOutOf256, shf, 1, bs.length, M, 0, 0, 4,
        List.enumFrom 0 bs⟩, true) := by
  obtain ⟨c, bs2, rfl⟩ := List.exists_cons_of_ne_nil hne
  unfold c4runB
  rw [code256_eq, toSamples_append]
  rw [sof256_prelude]
  rw [toSamples_append, List.flatMap_cons, toSamples_append, List.append_assoc]
  rw [aw256_to_rx M _ (slot_samples_head c (hb c (by simp)) _)]
  rw [← List.append_assoc, ← toSamples_append, ← List.flatMap_cons]
  obtain ⟨shf, h⟩ := rx256_data (c :: bs2) 0 M 0 0 0 [] hb (by simpa using hlen) (by simp)
  simp only [Nat.zero_add, List.nil_append] at h
  rw [h]
  exact ⟨shf, rfl⟩

/-- C4: for every nonempty byte sequence of length at most 32 (all bytes below
256) and every output capacity of at least 32, encoding with the 1-out-of-4
reader encoder and feeding the modulation samples to the reader-direction
decoder reports a complete frame whose stored output is exactly the original
byte sequence -- and the same holds for the 1-out-of-256 encoder. -/
theorem c4_roundtrip (bs : List Nat) (M : Nat) (hne : bs ≠ []) (hlen : bs.length ≤ 32)
    (hM : 32 ≤ M) (hb : ∀ b ∈ bs, b < 256) :
    (c4runA bs M).2 = true ∧ (c4runA bs M).1.writes = bs.enum ∧
    (c4runA bs M).1.byteCount = bs.length ∧
    (c4runB bs M).2 = true ∧ (c4runB bs M).1.writes = bs.enum ∧
    (c4runB bs M).1.byteCount = bs.length := by
  have hA := c4partA bs M hne (by omega) hb
  obtain ⟨shf, hB⟩ := c4partB bs M hne (by omega) hb
  rw [hA, hB]
  exact ⟨rfl, rfl, rfl, rfl, rfl, rfl⟩

/-- C4 witness: the round trip at the concrete frame d7 02 with capacity 45. -/
theorem c4_witness :
    (([0xD7, 0x02] : List Nat) ≠ [] ∧ ([0xD7, 0x02] : List Nat).length ≤ 32 ∧
      (32 : Nat) ≤ 45 ∧ (∀ b ∈ ([0xD7, 0x02] : List Nat), b < 256)) ∧
    ((c4runA [0xD7, 0x02] 45).2 = true ∧
      (c4runA [0xD7, 0x02] 45).1.writes = ([0xD7, 0x02] : List Nat).enum ∧
      (c4runA [0xD7, 0x02] 45).1.byteCount = ([0xD7, 0x02] : List Nat).length ∧
      (c4runB [0xD7, 0x02] 45).2 = true ∧
      (c4runB [0xD7, 0x02] 45).1.writes = ([0xD7, 0x02] : List Nat).enum ∧
      (c4runB [0xD7, 0x02] 45).1.byteCount = ([0xD7, 0x02] : List Nat).length) :=
  ⟨⟨by decide, by decide, by decide, by decide⟩,
   c4_roundtrip [0xD7, 0x02] 45 (by decide) (by decide) (by decide) (by decide)⟩

end Proxmark
